import Mathlib

/-!
Shallow embedding of the FAT32 driver in `src/fat32.c` (StrawberryHacker/fat32).

Machine integers are modelled as `Nat` with explicit reduction modulo `2^32`
(or `2^8`, `2^16`) exactly where the C code's fixed-width arithmetic wraps.
A 512-byte sector is modelled as a function `Nat → Nat` from byte offset to
byte value.  The block device (`disk_read` / `disk_write`, declared in the
repository's `disk_interface.h`, which is not part of src/) is modelled as a
sector store together with two success oracles, following the spec's view of
it as a sector-addressed synchronous API whose calls either succeed fully or
fail.  Stateful C code (the per-volume sector cache, cursors mutated through
pointers) becomes explicit state passing: each embedded function returns its
success flag together with the updated volume/disk states.

The constants from the repository's `fat32.h` header (offsets of BPB, SFN,
LFN and FSInfo fields, the status enumeration) are not under src/; they are
modelled from the spec's section 6 and are written as numeric literals at
their use sites, with the C macro name recalled in comments.
-/

/-- Modelled from the spec: the block-device layer (`disk_interface.h` is not
in src/).  `data lba off` is the byte at offset `off` of sector `lba`;
`readOk` / `writeOk` tell whether a one-sector `disk_read` / `disk_write` at
the given LBA succeeds.  Per the spec a block call either succeeds fully or
fails with no partial transfer. -/
structure disk_s where
  data : Nat → Nat → Nat
  readOk : Nat → Bool
  writeOk : Nat → Bool

/-- `struct volume_s` of fat32.h restricted to the fields src/fat32.c uses:
geometry, LBAs and the single-sector cache (`buffer`, `buffer_lba`,
`buffer_dirty`).  The linked-list `next` pointer is replaced by keeping
volumes in a `List volume_s`. -/
structure volume_s where
  letter : Nat
  sector_size : Nat
  cluster_size : Nat
  total_size : Nat
  info_lba : Nat
  fat_lba : Nat
  data_lba : Nat
  root_lba : Nat
  buffer : Nat → Nat
  buffer_lba : Nat
  buffer_dirty : Bool

/-- `struct dir_s`: the directory cursor (its `vol` pointer is passed
separately as an explicit `volume_s` state). -/
structure dir_s where
  start_sect : Nat
  sector : Nat
  cluster : Nat
  rw_offset : Nat
  size : Nat

/-- `struct file_s`: the file cursor. -/
structure file_s where
  start_sect : Nat
  sector : Nat
  cluster : Nat
  rw_offset : Nat
  glob_offset : Nat
  size : Nat

/-- `struct info_s`: the record a directory read fills in.  `name` is the
255-byte name array as a byte function. -/
structure info_s where
  name : Nat → Nat
  name_length : Nat
  «attribute» : Nat
  c_time_tenth : Nat
  c_time : Nat
  c_date : Nat
  w_time : Nat
  w_date : Nat
  a_date : Nat
  size : Nat

/-- Modelled from the spec: the `fstatus` enumeration of fat32.h (not in
src/).  The spec's status codes are `OK`, `EOF`, `ERROR`, `NO_VOLUME`,
`PATH_ERR`.  Where fat32.c writes a bare `return 0;` in a function returning
`fstatus` on a failing branch, the spec's description of that branch as a
failure is followed and the value is modelled as `error` (for
`fat_follow_path`'s failed search, `pathErr`, the status the spec maps that
failure to). -/
inductive fstatus where
  | ok
  | eof
  | error
  | noVolume
  | pathErr
deriving DecidableEq, Repr

/-- `fat_load16`: little-endian 16-bit load from a byte function. -/
def fat_load16 (src : Nat → Nat) (off : Nat) : Nat :=
  src off + 256 * src (off + 1)

/-- `fat_load32`: little-endian 32-bit load from a byte function. -/
def fat_load32 (src : Nat → Nat) (off : Nat) : Nat :=
  src off + 256 * src (off + 1) + 65536 * src (off + 2) + 16777216 * src (off + 3)

/-- `fat_store32`: little-endian 32-bit store into a byte function; each
stored byte is the C `(u8)value` truncation of a successive right shift. -/
def fat_store32 (dest : Nat → Nat) (off : Nat) (value : Nat) : Nat → Nat :=
  fun i =>
    if i = off then value % 256
    else if i = off + 1 then value / 256 % 256
    else if i = off + 2 then value / 65536 % 256
    else if i = off + 3 then value / 16777216 % 256
    else dest i

/-- `fat_memcmp` on two byte functions starting at the given offsets
(`count = 0` returns 1 in the C source, i.e. `true`). -/
def fat_memcmp (src1 src2 : Nat → Nat) (off1 off2 : Nat) : Nat → Bool
  | 0 => true
  | count + 1 =>
    if src1 off1 ≠ src2 off2 then false
    else fat_memcmp src1 src2 (off1 + 1) (off2 + 1) count

/-- One `disk_write` of the cached sector, as `fat_flush` performs it. -/
def disk_write_sector (d : disk_s) (lba : Nat) (b : Nat → Nat) : disk_s :=
  { d with data := fun l => if l = lba then b else d.data l }

/-- `fat_flush`: if the buffer is dirty, write it back to `buffer_lba` and
clear the dirty flag; a failed `disk_write` returns 0 and leaves the state
(dirty flag included) unchanged. -/
def fat_flush (vol : volume_s) (d : disk_s) : Bool × volume_s × disk_s :=
  if vol.buffer_dirty then
    if d.writeOk vol.buffer_lba then
      (true, { vol with buffer_dirty := false }, disk_write_sector d vol.buffer_lba vol.buffer)
    else
      (false, vol, d)
  else
    (true, vol, d)

/-- `fat_read`: serve `lba` from the cache when it is already loaded;
otherwise flush (write-back of a dirty buffer), then `disk_read` the sector
into the buffer and record `buffer_lba := lba`.  Failure of either disk call
returns 0 with the states the C code leaves behind. -/
def fat_read (vol : volume_s) (d : disk_s) (lba : Nat) : Bool × volume_s × disk_s :=
  if vol.buffer_lba = lba then (true, vol, d)
  else
    match fat_flush vol d with
    | (false, vol1, d1) => (false, vol1, d1)
    | (true, vol1, d1) =>
      if d1.readOk lba then
        (true, { vol1 with buffer := d1.data lba, buffer_lba := lba }, d1)
      else
        (false, vol1, d1)

/-- `fat_sect_to_clust`: `(sect - data_lba) / cluster_size + 2` in u32
arithmetic. -/
def fat_sect_to_clust (vol : volume_s) (sect : Nat) : Nat :=
  ((sect % 4294967296 + (4294967296 - vol.data_lba % 4294967296)) % 4294967296
    / vol.cluster_size + 2) % 4294967296

/-- `fat_clust_to_sect`: `(clust - 2) * cluster_size + data_lba` in u32
arithmetic. -/
def fat_clust_to_sect (vol : volume_s) (clust : Nat) : Nat :=
  ((clust % 4294967296 + (4294967296 - 2)) % 4294967296 * vol.cluster_size
    + vol.data_lba) % 4294967296

/-- `fat_table_get`: read the FAT sector `fat_lba + cluster / 128` through
the cache and load the 32-bit entry at `(cluster % 128) * 4`.  On a failed
cache read the C out-parameter is left unwritten; the model returns 0 there
(the callers never use it). -/
def fat_table_get (vol : volume_s) (d : disk_s) (cluster : Nat) :
    Bool × Nat × volume_s × disk_s :=
  let start_sect := vol.fat_lba + cluster / 128
  match fat_read vol d start_sect with
  | (false, vol1, d1) => (false, 0, vol1, d1)
  | (true, vol1, d1) => (true, fat_load32 vol1.buffer (cluster % 128 * 4), vol1, d1)

/-- The end-of-chain test fat32.c repeats at each chain step:
`(entry & 0xFFFFFFF) ∈ [0xFFFFFF8, 0xFFFFFFF]`. -/
def fat_entry_eoc (entry : Nat) : Bool :=
  let eoc_value := entry &&& 268435455
  decide (268435448 ≤ eoc_value) && decide (eoc_value ≤ 268435455)

/-- `fat_dir_sfn_crc` inner step: `crc = ((crc & 1) << 7) + (crc >> 1) + b`
truncated to u8. -/
def fat_sfn_crc_step (crc b : Nat) : Nat :=
  (((crc &&& 1) <<< 7) + (crc >>> 1) + b) % 256

/-- `fat_dir_sfn_crc`: the LFN checksum over the 11-byte SFN name found at
offset `off` of the byte function `sfn`. -/
def fat_dir_sfn_crc (sfn : Nat → Nat) (off : Nat) : Nat :=
  (List.range 11).foldl (fun crc i => fat_sfn_crc_step crc (sfn (off + i))) 0

/-! ### Shared cache facts -/

/-- Every read the block device is asked for succeeds. -/
def read_all_ok (d : disk_s) : Prop := ∀ lba, d.readOk lba = true

/-- Every write the block device is asked for succeeds. -/
def write_all_ok (d : disk_s) : Prop := ∀ lba, d.writeOk lba = true

/-- The state `fat_read` leaves the volume in after a successful cache load. -/
def cache_load (vol : volume_s) (d : disk_s) (lba : Nat) : volume_s :=
  if vol.buffer_lba = lba then vol
  else { vol with buffer := d.data lba, buffer_lba := lba }

/-- The cache is clean and its buffer agrees with the disk sector it names. -/
def cache_clean (vol : volume_s) (d : disk_s) : Prop :=
  vol.buffer_dirty = false ∧ vol.buffer = d.data vol.buffer_lba

theorem fat_flush_clean (vol : volume_s) (d : disk_s) (hd : vol.buffer_dirty = false) :
    fat_flush vol d = (true, vol, d) := by
  simp [fat_flush, hd]

theorem fat_read_clean (vol : volume_s) (d : disk_s) (lba : Nat)
    (hd : vol.buffer_dirty = false) (hr : d.readOk lba = true) :
    fat_read vol d lba = (true, cache_load vol d lba, d) := by
  unfold fat_read cache_load
  by_cases h : vol.buffer_lba = lba
  · simp [h]
  · rw [fat_flush_clean vol d hd]
    simp [h, hr]

theorem cache_load_buffer_dirty (vol : volume_s) (d : disk_s) (lba : Nat) :
    (cache_load vol d lba).buffer_dirty = vol.buffer_dirty := by
  unfold cache_load; split <;> rfl

theorem cache_load_sector_size (vol : volume_s) (d : disk_s) (lba : Nat) :
    (cache_load vol d lba).sector_size = vol.sector_size := by
  unfold cache_load; split <;> rfl

theorem cache_load_cluster_size (vol : volume_s) (d : disk_s) (lba : Nat) :
    (cache_load vol d lba).cluster_size = vol.cluster_size := by
  unfold cache_load; split <;> rfl

theorem cache_load_fat_lba (vol : volume_s) (d : disk_s) (lba : Nat) :
    (cache_load vol d lba).fat_lba = vol.fat_lba := by
  unfold cache_load; split <;> rfl

theorem cache_load_data_lba (vol : volume_s) (d : disk_s) (lba : Nat) :
    (cache_load vol d lba).data_lba = vol.data_lba := by
  unfold cache_load; split <;> rfl

theorem cache_load_info_lba (vol : volume_s) (d : disk_s) (lba : Nat) :
    (cache_load vol d lba).info_lba = vol.info_lba := by
  unfold cache_load; split <;> rfl

theorem cache_load_buffer (vol : volume_s) (d : disk_s) (lba : Nat)
    (hb : vol.buffer = d.data vol.buffer_lba) :
    (cache_load vol d lba).buffer = d.data lba := by
  unfold cache_load
  split
  · next h => rw [hb, h]
  · rfl

theorem cache_load_buffer_lba (vol : volume_s) (d : disk_s) (lba : Nat) :
    (cache_load vol d lba).buffer_lba = lba := by
  unfold cache_load
  split
  · next h => exact h
  · rfl

theorem cache_load_clean (vol : volume_s) (d : disk_s) (lba : Nat)
    (h : cache_clean vol d) : cache_clean (cache_load vol d lba) d := by
  refine ⟨?_, ?_⟩
  · rw [cache_load_buffer_dirty]; exact h.1
  · rw [cache_load_buffer vol d lba h.2, cache_load_buffer_lba]

/-! ### C8: cluster/sector arithmetic round-trip -/

/-- C8: for every volume, every cluster `≥ 2` and every `sector_off <
cluster_size`, `fat_sect_to_clust (fat_clust_to_sect cluster + sector_off) =
cluster`.  The side conditions say the inputs are representable u32 values,
the volume has a nonzero cluster size, and the sector number does not
overflow u32 — all true of any mounted volume. -/
theorem fat_sect_clust_roundtrip (vol : volume_s) (cluster sector_off : Nat)
    (hcs : 0 < vol.cluster_size)
    (hc2 : 2 ≤ cluster) (hclt : cluster < 4294967296)
    (hdl : vol.data_lba < 4294967296)
    (hoff : sector_off < vol.cluster_size)
    (hov : (cluster - 2) * vol.cluster_size + vol.data_lba + sector_off < 4294967296) :
    fat_sect_to_clust vol (fat_clust_to_sect vol cluster + sector_off) = cluster := by
  have e1 : fat_clust_to_sect vol cluster =
      (cluster - 2) * vol.cluster_size + vol.data_lba := by
    unfold fat_clust_to_sect
    have h1 : cluster % 4294967296 = cluster := Nat.mod_eq_of_lt hclt
    rw [h1]
    have h2 : (cluster + (4294967296 - 2)) % 4294967296 = cluster - 2 := by omega
    rw [h2]
    omega
  rw [e1]
  unfold fat_sect_to_clust
  have e3 : (((cluster - 2) * vol.cluster_size + vol.data_lba + sector_off) % 4294967296
      + (4294967296 - vol.data_lba % 4294967296)) % 4294967296
      = (cluster - 2) * vol.cluster_size + sector_off := by omega
  rw [e3]
  have e4 : ((cluster - 2) * vol.cluster_size + sector_off) / vol.cluster_size
      = cluster - 2 := by
    rw [Nat.mul_comm, Nat.mul_add_div hcs]
    simp [Nat.div_eq_of_lt hoff]
  rw [e4]
  omega

/-- A concrete mounted-volume geometry (the spec's mount scenario: 4 KiB
clusters, first data sector 4128). -/
def vol_demo : volume_s :=
  { letter := 67, sector_size := 512, cluster_size := 8, total_size := 67605,
    info_lba := 2049, fat_lba := 2080, data_lba := 4128, root_lba := 4128,
    buffer := fun _ => 0, buffer_lba := 0, buffer_dirty := false }

/-- C8 witness: the round-trip evaluated at cluster 5, sector offset 3 of the
demo volume. -/
theorem fat_sect_clust_roundtrip_witness :
    fat_sect_to_clust vol_demo (fat_clust_to_sect vol_demo 5 + 3) = 5 :=
  fat_sect_clust_roundtrip vol_demo 5 3 (by decide) (by decide) (by decide)
    (by decide) (by decide) (by decide)

/-! ### C7: the sector cache -/

/-- C7 (amended): complete case analysis of `fat_read`.  A cache hit returns
success with volume and disk untouched (no disk I/O).  On a miss, a dirty
buffer is written back and the dirty flag cleared before the new sector is
read and `buffer_lba` updated.  A failed write-back returns failure with the
whole state unchanged, the dirty flag still set.  A failed read returns
failure with `buffer` and `buffer_lba` unchanged; if the miss had a dirty
buffer, the successful write-back has already persisted it and cleared the
dirty flag. -/
theorem fat_read_cache_behavior (vol : volume_s) (d : disk_s) (lba : Nat) :
    (vol.buffer_lba = lba → fat_read vol d lba = (true, vol, d)) ∧
    (vol.buffer_lba ≠ lba → vol.buffer_dirty = true →
      d.writeOk vol.buffer_lba = false →
      fat_read vol d lba = (false, vol, d)) ∧
    (vol.buffer_lba ≠ lba → vol.buffer_dirty = true →
      d.writeOk vol.buffer_lba = true → d.readOk lba = false →
      fat_read vol d lba =
        (false, { vol with buffer_dirty := false },
          disk_write_sector d vol.buffer_lba vol.buffer)) ∧
    (vol.buffer_lba ≠ lba → vol.buffer_dirty = false → d.readOk lba = false →
      fat_read vol d lba = (false, vol, d)) ∧
    (vol.buffer_lba ≠ lba → vol.buffer_dirty = true →
      d.writeOk vol.buffer_lba = true → d.readOk lba = true →
      fat_read vol d lba =
        (true,
          { vol with
              buffer := (disk_write_sector d vol.buffer_lba vol.buffer).data lba,
              buffer_lba := lba, buffer_dirty := false },
          disk_write_sector d vol.buffer_lba vol.buffer)) ∧
    (vol.buffer_lba ≠ lba → vol.buffer_dirty = false → d.readOk lba = true →
      fat_read vol d lba =
        (true, { vol with buffer := d.data lba, buffer_lba := lba }, d)) := by
  refine ⟨?_, ?_, ?_, ?_, ?_, ?_⟩
  · intro h
    simp [fat_read, h]
  · intro h hd hw
    simp [fat_read, fat_flush, h, hd, hw]
  · intro h hd hw hr
    simp [fat_read, fat_flush, h, hd, hw, disk_write_sector, hr]
  · intro h hd hr
    simp [fat_read, fat_flush, h, hd, hr]
  · intro h hd hw hr
    simp [fat_read, fat_flush, h, hd, hw, disk_write_sector, hr]
  · intro h hd hr
    simp [fat_read, fat_flush, h, hd, hr]

/-- A dirty cache about to be moved to another LBA, on a device whose writes
succeed and whose reads fail. -/
def vol_c7 : volume_s :=
  { letter := 67, sector_size := 512, cluster_size := 8, total_size := 67605,
    info_lba := 2049, fat_lba := 2080, data_lba := 4128, root_lba := 4128,
    buffer := fun _ => 7, buffer_lba := 3, buffer_dirty := true }

/-- Writes succeed, reads fail. -/
def disk_c7 : disk_s :=
  { data := fun _ _ => 0, readOk := fun _ => false, writeOk := fun _ => true }

/-- C7 counterexample: with a dirty buffer, a successful write-back followed
by a failed `disk_read` returns failure but does NOT leave the cache state
unchanged — the dirty flag, set before the call, has been cleared, although
the write-back itself did not fail. -/
theorem fat_read_failed_read_clears_dirty :
    (fat_read vol_c7 disk_c7 9).1 = false ∧
    vol_c7.buffer_dirty = true ∧
    (fat_read vol_c7 disk_c7 9).2.1.buffer_dirty = false := by
  refine ⟨rfl, rfl, rfl⟩

/-! ### C4: rename chain sizing (`fat_dir_rename`) -/

/-- The name-length loop of `fat_dir_rename`: count characters of `name` up
to `length`, stopping at a `'.'` that is not at index 0.  Characters are
bytes; `'.' = 46`. -/
def fat_dir_rename_scan (name : List Nat) : Nat → Nat → Nat
  | 0, _ => 0
  | len + 1, i =>
    if name.getD i 0 = 46 ∧ i ≠ 0 then 0
    else 1 + fat_dir_rename_scan name len (i + 1)

/-- The `entries_req` computation of `fat_dir_rename`: start from 1, and when
the scanned name length exceeds 8, compute `(length / 13) - 1` in C int
arithmetic truncated to the u8 variable (`+ 255 ... % 256` renders the `- 1`
for a possibly-zero quotient). -/
def fat_dir_rename_entries_req (name : List Nat) (length : Nat) : Nat :=
  let name_length := fat_dir_rename_scan name length 0
  if name_length > 8 then (length / 13 + 255) % 256 else 1

/-- Modelled from the spec: the rename chain sizing rule of §4.G — for a new
name of length `L`, `1` entry when `L ≤ 8`, else `⌈L/13⌉ + 1` entries (the
LFN slots plus the SFN record). -/
def rename_entries_required_spec (L : Nat) : Nat :=
  if L ≤ 8 then 1 else (L + 12) / 13 + 1

/-- C4: the code's `entries_req` disagrees with the documented sizing rule.
For a 26-character dot-free name the spec requires `⌈26/13⌉ + 1 = 3` entries,
but `fat_dir_rename` computes `26 / 13 - 1 = 1`. -/
theorem fat_dir_rename_entries_req_bug :
    fat_dir_rename_entries_req (List.replicate 26 97) 26 = 1 ∧
    rename_entries_required_spec 26 = 3 := by
  decide

/-! ### C5: BPB validation (`fat_search`) -/

/-- The constant string `"FAT"` as a byte function. -/
def fat_str : Nat → Nat := fun i => [70, 65, 84].getD i 0

/-- `fat_search`, byte-exact from the source.  Field offsets (from the
repository's fat32.h, modelled from the spec's documented FAT32 offsets):
sector_size@11, cluster_size@13, rsvd_cnt@14, num_fats@16, root_ent_cnt@17,
tot_sect_16@19, fat_size_16@22, tot_sect_32@32, fat_size_32@36,
fstype_16@54, fstype_32@82, signature@510.  Note the source's `root_sectors`
expression divides by `sector_size - 1` (not `sector_size`), reproduced
verbatim here. -/
def fat_search (bpb : Nat → Nat) : Bool :=
  if fat_load16 bpb 510 ≠ 43605 then false
  else if (!fat_memcmp bpb fat_str 82 0 3) && (!fat_memcmp bpb fat_str 54 0 3) then false
  else
    let root_sectors :=
      (fat_load16 bpb 17 * 32 + (fat_load16 bpb 11 - 1)) / (fat_load16 bpb 11 - 1)
    let fat_size := if fat_load16 bpb 22 ≠ 0 then fat_load16 bpb 22 else fat_load32 bpb 36
    let tot_sect := if fat_load16 bpb 19 ≠ 0 then fat_load16 bpb 19 else fat_load32 bpb 32
    let data_sectors := (tot_sect + (4294967296 -
      ((fat_load16 bpb 14 + bpb 16 * fat_size % 4294967296) % 4294967296
        + root_sectors) % 4294967296)) % 4294967296
    let data_clusters := data_sectors / bpb 13
    if data_clusters < 65525 then false else true

/-- Modelled from the spec: the FAT32 acceptance criterion of §4.F step 5,
with `root_sectors = ⌈root_ent_cnt·32 / sector_size⌉` (zero for FAT32). -/
def fat_search_spec (bpb : Nat → Nat) : Bool :=
  (decide (fat_load16 bpb 510 = 43605)) &&
  (fat_memcmp bpb fat_str 82 0 3 || fat_memcmp bpb fat_str 54 0 3) &&
  (let root_sectors :=
    (fat_load16 bpb 17 * 32 + (fat_load16 bpb 11 - 1)) / fat_load16 bpb 11
   let fat_size := if fat_load16 bpb 22 ≠ 0 then fat_load16 bpb 22 else fat_load32 bpb 36
   let tot_sect := if fat_load16 bpb 19 ≠ 0 then fat_load16 bpb 19 else fat_load32 bpb 32
   let data_sectors := tot_sect - (fat_load16 bpb 14 + bpb 16 * fat_size + root_sectors)
   decide (65525 ≤ data_sectors / bpb 13))

/-- A valid FAT32 BPB sitting exactly at the 65525-cluster boundary:
sector_size 512, cluster_size 1, rsvd_cnt 32, 2 FATs of 1024 sectors,
root_ent_cnt 0, tot_sect 67605, "FAT" at the FAT32 fstype offset, signature
0xAA55. -/
def bpb_c5 : Nat → Nat := fun i =>
  if i = 12 then 2
  else if i = 13 then 1
  else if i = 14 then 32
  else if i = 16 then 2
  else if i = 32 then 21 else if i = 33 then 8 else if i = 34 then 1
  else if i = 37 then 4
  else if i = 82 then 70 else if i = 83 then 65 else if i = 84 then 84
  else if i = 510 then 85 else if i = 511 then 170
  else 0

/-- C5: `fat_search` divides by `sector_size - 1` when rounding the FAT16
root-directory size up, so a FAT32 BPB (root_ent_cnt = 0) is charged one
phantom root sector; at the 65525-cluster boundary the volume the spec's
criterion accepts is rejected by the code. -/
theorem fat_search_boundary_bug :
    fat_search bpb_c5 = false ∧ fat_search_spec bpb_c5 = true := by
  decide

/-! ### C2: `fat_file_read` -/

/-- `fat_file_addr_resolve`: when `rw_offset` has run past the sector, carry
it into the sector number, and when the sector has run past the cluster,
follow the FAT chain (failing on EOC).  The sums that C computes in u32 are
reduced mod `2^32`. -/
def fat_file_addr_resolve (file : file_s) (vol : volume_s) (d : disk_s) :
    Bool × file_s × volume_s × disk_s :=
  if file.rw_offset ≥ vol.sector_size then
    let file1 := { file with rw_offset := file.rw_offset - vol.sector_size,
                             sector := file.sector + 1 }
    if file1.sector ≥ (fat_clust_to_sect vol file1.cluster + vol.cluster_size) % 4294967296
    then
      match fat_table_get vol d file1.cluster with
      | (false, _, vol1, d1) => (false, file1, vol1, d1)
      | (true, new_cluster, vol1, d1) =>
        if fat_entry_eoc new_cluster then (false, file1, vol1, d1)
        else
          (true, { file1 with cluster := new_cluster,
                              sector := fat_clust_to_sect vol1 new_cluster }, vol1, d1)
    else (true, file1, vol, d)
  else (true, file, vol, d)

/-- Result of `fat_file_read`: the returned status, the bytes copied into
the caller's buffer (in order), the `*status` out-parameter, and the final
cursor / volume / disk states. -/
structure file_read_res where
  status : fstatus
  bytes : List Nat
  status_out : Nat
  file : file_s
  vol : volume_s
  disk : disk_s


/-- The `while (count--)` loop of `fat_file_read`.  `sector_size` and
`file_size` are the locals the C function reads once at entry.  Each
iteration resolves a sector overflow (ignoring, as the source does, the
resolver's success flag), reloads the cache for the cursor's sector when it
resolved, copies one byte, advances `rw_offset`/`glob_offset`/`*status`, and
breaks once `glob_offset ≥ file_size`. -/
def fat_file_read_loop (sector_size file_size : Nat) :
    Nat → file_s → volume_s → disk_s → file_read_res
  | 0, file, vol, d =>
    { status := .ok, bytes := [], status_out := 0, file := file, vol := vol, disk := d }
  | count + 1, file, vol, d =>
    match
      (if file.rw_offset ≥ sector_size then
        match fat_file_addr_resolve file vol d with
        | (_, f1, v1, d1) =>
          match fat_read v1 d1 f1.sector with
          | (false, v2, d2) => (false, f1, v2, d2)
          | (true, v2, d2) => (true, f1, v2, d2)
      else (true, file, vol, d) : Bool × file_s × volume_s × disk_s)
    with
    | (false, f1, v1, d1) =>
      { status := .error, bytes := [], status_out := 0, file := f1, vol := v1, disk := d1 }
    | (true, f1, v1, d1) =>
      let b := v1.buffer f1.rw_offset
      let f2 := { f1 with rw_offset := f1.rw_offset + 1,
                          glob_offset := f1.glob_offset + 1 }
      if f2.glob_offset ≥ file_size then
        { status := .ok, bytes := [b], status_out := 1, file := f2, vol := v1, disk := d1 }
      else
        let r := fat_file_read_loop sector_size file_size count f2 v1 d1
        { r with bytes := b :: r.bytes, status_out := r.status_out + 1 }

/-- `fat_file_read`: clear `*status`, load the cursor's sector through the
cache, then run the per-byte loop.  The `*status` out-parameter is the
`status_out` field of the result; the bytes written to the caller's buffer
are the `bytes` list. -/
def fat_file_read (file : file_s) (vol : volume_s) (d : disk_s) (count : Nat) :
    file_read_res :=
  match fat_read vol d file.sector with
  | (false, v1, d1) =>
    { status := .error, bytes := [], status_out := 0, file := file, vol := v1, disk := d1 }
  | (true, v1, d1) => fat_file_read_loop vol.sector_size file.size count file v1 d1

theorem fat_file_addr_resolve_clean (file : file_s) (vol : volume_s) (d : disk_s)
    (hclean : cache_clean vol d) (hio : read_all_ok d) :
    (fat_file_addr_resolve file vol d).2.2.2 = d ∧
    cache_clean (fat_file_addr_resolve file vol d).2.2.1 d ∧
    (fat_file_addr_resolve file vol d).2.1.size = file.size ∧
    (fat_file_addr_resolve file vol d).2.1.glob_offset = file.glob_offset := by
  unfold fat_file_addr_resolve
  split
  · dsimp only
    split
    · simp only [fat_table_get]
      rw [fat_read_clean vol d _ hclean.1 (hio _)]
      dsimp only
      split
      · exact ⟨rfl, cache_load_clean vol d _ hclean, rfl, rfl⟩
      · exact ⟨rfl, cache_load_clean vol d _ hclean, rfl, rfl⟩
    · exact ⟨rfl, hclean, rfl, rfl⟩
  · exact ⟨rfl, hclean, rfl, rfl⟩

theorem fat_file_read_loop_succ_clean (sector_size file_size count : Nat)
    (file : file_s) (vol : volume_s) (d : disk_s)
    (hclean : cache_clean vol d) (hio : read_all_ok d) :
    ∃ (f1 : file_s) (v1 : volume_s), cache_clean v1 d ∧ f1.glob_offset = file.glob_offset ∧
      fat_file_read_loop sector_size file_size (count + 1) file vol d =
        (if f1.glob_offset + 1 ≥ file_size then
          { status := .ok, bytes := [v1.buffer f1.rw_offset], status_out := 1,
            file := { f1 with rw_offset := f1.rw_offset + 1,
                              glob_offset := f1.glob_offset + 1 },
            vol := v1, disk := d }
        else
          let r := fat_file_read_loop sector_size file_size count
            { f1 with rw_offset := f1.rw_offset + 1, glob_offset := f1.glob_offset + 1 }
            v1 d
          { r with bytes := v1.buffer f1.rw_offset :: r.bytes,
                   status_out := r.status_out + 1 }) := by
  by_cases h : file.rw_offset ≥ sector_size
  · rcases hres : fat_file_addr_resolve file vol d with ⟨okr, f1, v1, d1⟩
    obtain ⟨hd1, hc1, hsz1, hg1⟩ := fat_file_addr_resolve_clean file vol d hclean hio
    rw [hres] at hd1 hc1 hsz1 hg1
    dsimp only at hd1 hc1 hsz1 hg1
    rw [hd1] at hres
    refine ⟨f1, cache_load v1 d f1.sector, cache_load_clean v1 d _ hc1, hg1, ?_⟩
    simp only [fat_file_read_loop, if_pos h, hres]
    rw [fat_read_clean v1 d f1.sector hc1.1 (hio _)]
  · refine ⟨file, vol, hclean, rfl, ?_⟩
    simp only [fat_file_read_loop, if_neg h]

theorem fat_file_read_loop_delivers (sector_size file_size : Nat) :
    ∀ (count : Nat) (file : file_s) (vol : volume_s) (d : disk_s),
      cache_clean vol d → read_all_ok d → file.glob_offset < file_size →
      (fat_file_read_loop sector_size file_size count file vol d).status = .ok ∧
      (fat_file_read_loop sector_size file_size count file vol d).bytes.length =
        min count (file_size - file.glob_offset) ∧
      (fat_file_read_loop sector_size file_size count file vol d).status_out =
        min count (file_size - file.glob_offset) ∧
      (fat_file_read_loop sector_size file_size count file vol d).file.glob_offset =
        file.glob_offset + min count (file_size - file.glob_offset) := by
  intro count
  induction count with
  | zero =>
    intro file vol d _ _ _
    simp [fat_file_read_loop]
  | succ count ih =>
    intro file vol d hclean hio hglob
    obtain ⟨f1, v1, hc1, hg1, heq⟩ :=
      fat_file_read_loop_succ_clean sector_size file_size count file vol d hclean hio
    rw [heq]
    by_cases hend : f1.glob_offset + 1 ≥ file_size
    · rw [if_pos hend]
      have hone : file_size - file.glob_offset = 1 := by omega
      refine ⟨rfl, ?_, ?_, ?_⟩ <;> dsimp only <;> simp [hone, hg1]
    · rw [if_neg hend]
      have hlt : f1.glob_offset + 1 < file_size := by omega
      obtain ⟨ih1, ih2, ih3, ih4⟩ := ih
        { f1 with rw_offset := f1.rw_offset + 1, glob_offset := f1.glob_offset + 1 }
        v1 d hc1 hio hlt
      have ih2' : (fat_file_read_loop sector_size file_size count
          { f1 with rw_offset := f1.rw_offset + 1, glob_offset := f1.glob_offset + 1 }
          v1 d).bytes.length = min count (file_size - (f1.glob_offset + 1)) := ih2
      have ih3' : (fat_file_read_loop sector_size file_size count
          { f1 with rw_offset := f1.rw_offset + 1, glob_offset := f1.glob_offset + 1 }
          v1 d).status_out = min count (file_size - (f1.glob_offset + 1)) := ih3
      have ih4' : (fat_file_read_loop sector_size file_size count
          { f1 with rw_offset := f1.rw_offset + 1, glob_offset := f1.glob_offset + 1 }
          v1 d).file.glob_offset =
          (f1.glob_offset + 1) + min count (file_size - (f1.glob_offset + 1)) := ih4
      refine ⟨?_, ?_, ?_, ?_⟩
      · show (fat_file_read_loop sector_size file_size count
          { f1 with rw_offset := f1.rw_offset + 1, glob_offset := f1.glob_offset + 1 }
          v1 d).status = .ok
        exact ih1
      · show _ + 1 = min (count + 1) (file_size - file.glob_offset)
        rw [ih2']
        omega
      · show (fat_file_read_loop sector_size file_size count
          { f1 with rw_offset := f1.rw_offset + 1, glob_offset := f1.glob_offset + 1 }
          v1 d).status_out + 1 = min (count + 1) (file_size - file.glob_offset)
        rw [ih3']
        omega
      · show (fat_file_read_loop sector_size file_size count
          { f1 with rw_offset := f1.rw_offset + 1, glob_offset := f1.glob_offset + 1 }
          v1 d).file.glob_offset =
          file.glob_offset + min (count + 1) (file_size - file.glob_offset)
        rw [ih4']
        omega

/-- C2 (amended): for every open file cursor with `glob_offset < size`, on a
device whose reads succeed and with a clean coherent cache, `fat_file_read`
returns OK, delivers exactly `min count (size - glob_offset)` bytes, reports
that number through the `*status` out-parameter, and leaves
`glob_offset ≤ size`. -/
theorem fat_file_read_short_read (file : file_s) (vol : volume_s) (d : disk_s)
    (count : Nat)
    (hclean : cache_clean vol d) (hio : read_all_ok d)
    (hglob : file.glob_offset < file.size) :
    (fat_file_read file vol d count).status = .ok ∧
    (fat_file_read file vol d count).bytes.length =
      min count (file.size - file.glob_offset) ∧
    (fat_file_read file vol d count).status_out =
      min count (file.size - file.glob_offset) ∧
    (fat_file_read file vol d count).file.glob_offset =
      file.glob_offset + min count (file.size - file.glob_offset) ∧
    (fat_file_read file vol d count).file.glob_offset ≤ file.size := by
  unfold fat_file_read
  rw [fat_read_clean vol d file.sector hclean.1 (hio _)]
  obtain ⟨h1, h2, h3, h4⟩ := fat_file_read_loop_delivers vol.sector_size file.size count
    file (cache_load vol d file.sector) d (cache_load_clean vol d _ hclean) hio hglob
  refine ⟨h1, h2, h3, h4, ?_⟩
  show (fat_file_read_loop vol.sector_size file.size count file
    (cache_load vol d file.sector) d).file.glob_offset ≤ file.size
  rw [h4]
  omega

/-- A file cursor already exactly at end of file (`glob_offset = size`). -/
def file_c2 : file_s :=
  { start_sect := 4128, sector := 4128, cluster := 2, rw_offset := 100,
    glob_offset := 100, size := 100 }

/-- The demo volume with the cursor's sector already cached. -/
def vol_c2 : volume_s :=
  { vol_demo with buffer_lba := 4128, buffer := fun _ => 9 }

/-- A fault-free block device holding 9 in every byte. -/
def disk_c2 : disk_s :=
  { data := fun _ _ => 9, readOk := fun _ => true, writeOk := fun _ => true }

/-- C2 counterexample: a read of 1 byte issued when `glob_offset` already
equals `size` (= 100) delivers 1 byte, not 0, and leaves
`glob_offset = 101 > size`, breaking the `glob_offset ≤ size` invariant the
claim says is preserved. -/
theorem fat_file_read_at_eof_delivers_a_byte :
    file_c2.glob_offset = file_c2.size ∧
    (fat_file_read file_c2 vol_c2 disk_c2 1).status = .ok ∧
    (fat_file_read file_c2 vol_c2 disk_c2 1).status_out = 1 ∧
    (fat_file_read file_c2 vol_c2 disk_c2 1).file.glob_offset = 101 :=
  ⟨rfl, rfl, rfl, rfl⟩

/-- A file cursor at offset 0 of a 100-byte file. -/
def file_c2w : file_s :=
  { start_sect := 4128, sector := 4128, cluster := 2, rw_offset := 0,
    glob_offset := 0, size := 100 }

/-- C2 witness: the spec's EOF short-read scenario — a 200-byte read of a
100-byte file delivers 100 bytes and stops at `glob_offset = 100`. -/
theorem fat_file_read_short_read_witness :
    (fat_file_read file_c2w vol_c2 disk_c2 200).status = .ok ∧
    (fat_file_read file_c2w vol_c2 disk_c2 200).bytes.length =
      min 200 (file_c2w.size - file_c2w.glob_offset) ∧
    (fat_file_read file_c2w vol_c2 disk_c2 200).status_out =
      min 200 (file_c2w.size - file_c2w.glob_offset) ∧
    (fat_file_read file_c2w vol_c2 disk_c2 200).file.glob_offset =
      file_c2w.glob_offset + min 200 (file_c2w.size - file_c2w.glob_offset) ∧
    (fat_file_read file_c2w vol_c2 disk_c2 200).file.glob_offset ≤ file_c2w.size :=
  fat_file_read_short_read file_c2w vol_c2 disk_c2 200 ⟨rfl, rfl⟩ (fun _ => rfl)
    (by decide)

/-! ### C6: `fat_file_jump` (seek) -/

/-- The 32-bit FAT entry of `cluster` as stored on disk, for a FAT starting
at sector `fat_lba`. -/
def disk_fat_entry (d : disk_s) (fat_lba cluster : Nat) : Nat :=
  fat_load32 (d.data (fat_lba + cluster / 128)) (cluster % 128 * 4)

/-- The cluster reached after `n` FAT-chain hops from `c` (each hop replaces
the cluster by its raw 32-bit FAT entry, exactly as the driver's walk does). -/
def fat_chain (d : disk_s) (fat_lba c : Nat) : Nat → Nat
  | 0 => c
  | n + 1 => disk_fat_entry d fat_lba (fat_chain d fat_lba c n)

theorem fat_chain_succ_front (d : disk_s) (fat_lba c : Nat) :
    ∀ n, fat_chain d fat_lba c (n + 1) =
      fat_chain d fat_lba (disk_fat_entry d fat_lba c) n := by
  intro n
  induction n with
  | zero => rfl
  | succ n ih =>
    show disk_fat_entry d fat_lba (fat_chain d fat_lba c (n + 1)) = _
    rw [ih]
    rfl

theorem fat_table_get_clean (vol : volume_s) (d : disk_s) (cluster : Nat)
    (hclean : cache_clean vol d) (hio : read_all_ok d) :
    fat_table_get vol d cluster =
      (true, disk_fat_entry d vol.fat_lba cluster,
        cache_load vol d (vol.fat_lba + cluster / 128), d) := by
  simp only [fat_table_get]
  rw [fat_read_clean vol d _ hclean.1 (hio _)]
  dsimp only
  rw [cache_load_buffer vol d _ hclean.2]
  rfl

/-- The `while (cluster_offset)` FAT-chain walk of `fat_file_jump`.  The bare
`return 0` the source uses when it meets an end-of-chain entry is modelled as
the failure status (the spec: "if EOC encountered before reaching the
target, fail"). -/
def fat_file_jump_loop : Nat → file_s → volume_s → disk_s →
    fstatus × file_s × volume_s × disk_s
  | 0, file, vol, d => (.ok, file, vol, d)
  | cluster_offset + 1, file, vol, d =>
    match fat_table_get vol d file.cluster with
    | (false, _, vol1, d1) => (.error, file, vol1, d1)
    | (true, new_cluster, vol1, d1) =>
      if fat_entry_eoc new_cluster then (.error, file, vol1, d1)
      else fat_file_jump_loop cluster_offset { file with cluster := new_cluster } vol1 d1

/-- `fat_file_jump`: reset the cursor's cluster to the file's first cluster,
split the byte offset into cluster hops / sector offset / byte offset, walk
the chain, and rebuild the cursor. -/
def fat_file_jump (file : file_s) (vol : volume_s) (d : disk_s) (offset : Nat) :
    fstatus × file_s × volume_s × disk_s :=
  let file0 := { file with cluster := fat_sect_to_clust vol file.start_sect }
  let sector_offset := offset / vol.sector_size
  let cluster_offset := sector_offset / vol.cluster_size
  let sector_offset2 := sector_offset % vol.cluster_size
  match fat_file_jump_loop cluster_offset file0 vol d with
  | (.ok, f1, v1, d1) =>
    (.ok, { f1 with
              sector := (fat_clust_to_sect v1 f1.cluster + sector_offset2) % 4294967296,
              rw_offset := offset % v1.sector_size,
              glob_offset := offset }, v1, d1)
  | r => r

theorem fat_clust_to_sect_congr (v1 vol : volume_s) (x : Nat)
    (hcs : v1.cluster_size = vol.cluster_size) (hdl : v1.data_lba = vol.data_lba) :
    fat_clust_to_sect v1 x = fat_clust_to_sect vol x := by
  unfold fat_clust_to_sect
  rw [hcs, hdl]

theorem fat_file_jump_loop_ok (d : disk_s) (L : Nat) :
    ∀ (n : Nat) (file : file_s) (vol : volume_s),
      vol.fat_lba = L → cache_clean vol d → read_all_ok d →
      (∀ i < n, fat_entry_eoc (disk_fat_entry d L (fat_chain d L file.cluster i)) = false) →
      ∃ v1 : volume_s,
        fat_file_jump_loop n file vol d =
          (.ok, { file with cluster := fat_chain d L file.cluster n }, v1, d) ∧
        cache_clean v1 d ∧ v1.fat_lba = L ∧
        v1.sector_size = vol.sector_size ∧ v1.cluster_size = vol.cluster_size ∧
        v1.data_lba = vol.data_lba := by
  intro n
  induction n with
  | zero =>
    intro file vol hL hclean hio _
    exact ⟨vol, rfl, hclean, hL, rfl, rfl, rfl⟩
  | succ n ih =>
    intro file vol hL hclean hio hchain
    have h0 : fat_entry_eoc (disk_fat_entry d L file.cluster) = false :=
      hchain 0 (Nat.succ_pos n)
    simp only [fat_file_jump_loop, fat_table_get_clean vol d file.cluster hclean hio, hL,
      h0, Bool.false_eq_true, if_false]
    obtain ⟨v1, heq, hc1, hL1, hs1, hcs1, hdl1⟩ :=
      ih { file with cluster := disk_fat_entry d L file.cluster }
        (cache_load vol d (L + file.cluster / 128))
        (by rw [cache_load_fat_lba, hL])
        (cache_load_clean vol d _ hclean) hio
        (by
          intro i hi
          have := hchain (i + 1) (by omega)
          rw [fat_chain_succ_front] at this
          simpa using this)
    refine ⟨v1, ?_, hc1, hL1, ?_, ?_, ?_⟩
    · rw [heq, fat_chain_succ_front d L _ n]
    · rw [hs1, cache_load_sector_size]
    · rw [hcs1, cache_load_cluster_size]
    · rw [hdl1, cache_load_data_lba]

theorem fat_file_jump_loop_eoc (d : disk_s) (L : Nat) :
    ∀ (j n : Nat) (file : file_s) (vol : volume_s),
      vol.fat_lba = L → cache_clean vol d → read_all_ok d →
      j < n →
      (∀ i < j, fat_entry_eoc (disk_fat_entry d L (fat_chain d L file.cluster i)) = false) →
      fat_entry_eoc (disk_fat_entry d L (fat_chain d L file.cluster j)) = true →
      (fat_file_jump_loop n file vol d).1 = .error := by
  intro j
  induction j with
  | zero =>
    intro n file vol hL hclean hio hjn _ hj
    obtain ⟨m, rfl⟩ : ∃ m, n = m + 1 := ⟨n - 1, by omega⟩
    have hj' : fat_entry_eoc (disk_fat_entry d L file.cluster) = true := hj
    simp [fat_file_jump_loop, fat_table_get_clean vol d file.cluster hclean hio, hL, hj']
  | succ j ihj =>
    intro n file vol hL hclean hio hjn hfore hj
    obtain ⟨m, rfl⟩ : ∃ m, n = m + 1 := ⟨n - 1, by omega⟩
    have h0 : fat_entry_eoc (disk_fat_entry d L file.cluster) = false :=
      hfore 0 (Nat.succ_pos j)
    simp only [fat_file_jump_loop, fat_table_get_clean vol d file.cluster hclean hio, hL,
      h0, Bool.false_eq_true, if_false]
    refine ihj m { file with cluster := disk_fat_entry d L file.cluster }
      (cache_load vol d (L + file.cluster / 128))
      (by rw [cache_load_fat_lba, hL]) (cache_load_clean vol d _ hclean) hio
      (by omega) ?_ ?_
    · intro i hi
      have := hfore (i + 1) (by omega)
      rw [fat_chain_succ_front] at this
      simpa using this
    · rw [fat_chain_succ_front] at hj
      simpa using hj

/-- C6: `fat_file_jump` resets the cursor's cluster to
`sect_to_clust(start_sect)`, walks the FAT chain
`offset / sector_size / cluster_size` hops, failing as soon as an
end-of-chain entry is met before the target, and on success sets
`sector = clust_to_sect(cluster) + (offset / sector_size) % cluster_size`
(u32 arithmetic), `rw_offset = offset % sector_size` and
`glob_offset = offset`. -/
theorem fat_file_jump_spec (file : file_s) (vol : volume_s) (d : disk_s) (offset : Nat)
    (hclean : cache_clean vol d) (hio : read_all_ok d) :
    ((∀ i < offset / vol.sector_size / vol.cluster_size,
        fat_entry_eoc (disk_fat_entry d vol.fat_lba (fat_chain d vol.fat_lba
          (fat_sect_to_clust vol file.start_sect) i)) = false) →
      (fat_file_jump file vol d offset).1 = .ok ∧
      (fat_file_jump file vol d offset).2.1.cluster =
        fat_chain d vol.fat_lba (fat_sect_to_clust vol file.start_sect)
          (offset / vol.sector_size / vol.cluster_size) ∧
      (fat_file_jump file vol d offset).2.1.sector =
        (fat_clust_to_sect vol (fat_chain d vol.fat_lba
            (fat_sect_to_clust vol file.start_sect)
            (offset / vol.sector_size / vol.cluster_size))
          + offset / vol.sector_size % vol.cluster_size) % 4294967296 ∧
      (fat_file_jump file vol d offset).2.1.rw_offset = offset % vol.sector_size ∧
      (fat_file_jump file vol d offset).2.1.glob_offset = offset) ∧
    (∀ j < offset / vol.sector_size / vol.cluster_size,
      (∀ i < j, fat_entry_eoc (disk_fat_entry d vol.fat_lba (fat_chain d vol.fat_lba
        (fat_sect_to_clust vol file.start_sect) i)) = false) →
      fat_entry_eoc (disk_fat_entry d vol.fat_lba (fat_chain d vol.fat_lba
        (fat_sect_to_clust vol file.start_sect) j)) = true →
      (fat_file_jump file vol d offset).1 = .error) := by
  constructor
  · intro hch
    obtain ⟨v1, heq, hc1, hL1, hs1, hcs1, hdl1⟩ :=
      fat_file_jump_loop_ok d vol.fat_lba (offset / vol.sector_size / vol.cluster_size)
        { file with cluster := fat_sect_to_clust vol file.start_sect } vol rfl hclean hio hch
    simp only [fat_file_jump, heq]
    simp [fat_clust_to_sect_congr v1 vol _ hcs1 hdl1, hcs1, hs1]
  · intro j hj hfore heoc
    have herr := fat_file_jump_loop_eoc d vol.fat_lba j
      (offset / vol.sector_size / vol.cluster_size)
      { file with cluster := fat_sect_to_clust vol file.start_sect } vol rfl hclean hio
      hj hfore heoc
    rcases hres : fat_file_jump_loop (offset / vol.sector_size / vol.cluster_size)
      { file with cluster := fat_sect_to_clust vol file.start_sect } vol d
      with ⟨s, f1, v1, d1⟩
    rw [hres] at herr
    dsimp only at herr
    subst herr
    simp only [fat_file_jump, hres]

/-- Block device for the spec's seek scenario: FAT chain 2 → 5 → 9 → EOC at
the demo volume's FAT (sector 2080). -/
def disk_c6 : disk_s :=
  { data := fun lba i =>
      if lba = 2080 then
        if i = 8 then 5
        else if i = 20 then 9
        else if i = 36 then 255 else if i = 37 then 255 else if i = 38 then 255
        else if i = 39 then 15
        else 0
      else 0,
    readOk := fun _ => true, writeOk := fun _ => true }

/-- A 12288-byte file starting at cluster 2 (sector 4128) of the demo
volume. -/
def file_c6 : file_s :=
  { start_sect := 4128, sector := 4128, cluster := 2, rw_offset := 0,
    glob_offset := 0, size := 12288 }

/-- C6 witness: the spec's scenario 4 — `seek(6000)` on the chain 2→5→9 with
4096-byte clusters lands in cluster 5, sector 4155, `rw_offset` 368,
`glob_offset` 6000. -/
theorem fat_file_jump_spec_witness :
    (fat_file_jump file_c6 vol_demo disk_c6 6000).1 = .ok ∧
    (fat_file_jump file_c6 vol_demo disk_c6 6000).2.1.cluster = 5 ∧
    (fat_file_jump file_c6 vol_demo disk_c6 6000).2.1.sector = 4155 ∧
    (fat_file_jump file_c6 vol_demo disk_c6 6000).2.1.rw_offset = 368 ∧
    (fat_file_jump file_c6 vol_demo disk_c6 6000).2.1.glob_offset = 6000 := by
  obtain ⟨h1, h2, h3, h4, h5⟩ :=
    (fat_file_jump_spec file_c6 vol_demo disk_c6 6000 ⟨rfl, rfl⟩ (fun _ => rfl)).1
      (by decide)
  refine ⟨h1, ?_, ?_, ?_, h5⟩
  · rw [h2]; decide
  · rw [h3]; decide
  · rw [h4]; decide

/-! ### C10: LFN checksum mismatch in `fat_dir_read` -/

/-- `fat_dir_get_next`: advance the directory cursor one 32-byte entry,
carrying into the next sector and — via the FAT table — into the next
cluster; returns 0 at end-of-chain or on a failed FAT read. -/
def fat_dir_get_next (dir : dir_s) (vol : volume_s) (d : disk_s) :
    Bool × dir_s × volume_s × disk_s :=
  -- dir->rw_offset += 32; the subsequent tests read the updated fields, so
  -- the conditions are written with the updated values spelled out
  if dir.rw_offset + 32 ≥ vol.sector_size then
    let dir2 := { dir with rw_offset := dir.rw_offset + 32 - vol.sector_size,
                           sector := dir.sector + 1 }
    if dir.sector + 1 ≥ (fat_clust_to_sect vol dir.cluster + vol.cluster_size) % 4294967296
    then
      match fat_table_get vol d dir.cluster with
      | (false, _, vol1, d1) => (false, dir2, vol1, d1)
      | (true, new_cluster, vol1, d1) =>
        if fat_entry_eoc new_cluster then (false, dir2, vol1, d1)
        else
          (true, { dir2 with cluster := new_cluster,
                             sector := fat_clust_to_sect vol1 new_cluster }, vol1, d1)
    else (true, dir2, vol, d)
  else (true, { dir with rw_offset := dir.rw_offset + 32 }, vol, d)

/-- The UCS-2 byte offsets of the 13 name characters inside an LFN entry
(`lfn_offsets` in the source). -/
def lfn_offsets : List Nat := [1, 3, 5, 7, 9, 14, 16, 18, 20, 22, 24, 28, 30]

/-- The LFN-branch copy of `fat_dir_read`: for each of the 13 slots, copy the
low UCS-2 byte into `name[name_offset + i]` and count it, skipping 0x00 and
0xFF padding.  Returns the updated name array and the number of characters
added to `name_length`. -/
def fat_dir_read_lfn_copy (entry name : Nat → Nat) (name_offset : Nat) :
    (Nat → Nat) × Nat :=
  (List.range 13).foldl
    (fun (acc : (Nat → Nat) × Nat) i =>
      let tmp_char := entry (lfn_offsets.getD i 0)
      if tmp_char = 0 ∨ tmp_char = 255 then acc
      else (fun j => if j = name_offset + i then tmp_char else acc.1 j, acc.2 + 1))
    (name, 0)

/-- The `while (1)` loop of `fat_dir_read`, with `fuel` bounding it (`none`
when the fuel runs out).  Carries the loop locals `lfn_crc` and
`name_length`.  Entry bytes live at `buffer[rw_offset + i]`; attribute
offset 11, LFN checksum offset 13, and the SFN date/time/size fields at the
documented offsets (fat32.h is not in src/; offsets follow the spec §4.G and
§6). -/
def fat_dir_read_loop :
    Nat → Nat → Nat → info_s → dir_s → volume_s → disk_s →
    Option (fstatus × info_s × dir_s × volume_s × disk_s)
  | 0, _, _, _, _, _, _ => none
  | fuel + 1, lfn_crc, name_length, info, dir, vol, d =>
    match fat_read vol d dir.sector with
    | (false, v1, d1) => some (.error, info, dir, v1, d1)
    | (true, v1, d1) =>
      if v1.buffer (dir.rw_offset + 0) = 0 then
        some (.eof, info, dir, v1, d1)
      else
        if v1.buffer (dir.rw_offset + 0) ≠ 229 ∧ v1.buffer (dir.rw_offset + 0) ≠ 5 then
          if v1.buffer (dir.rw_offset + 11) &&& 15 = 15 then
            let name_offset := (13 * ((v1.buffer (dir.rw_offset + 0) &&& 31) + 255)) % 256
            let copied := fat_dir_read_lfn_copy (fun i => v1.buffer (dir.rw_offset + i))
              info.name name_offset
            let next := fat_dir_get_next dir v1 d1
            fat_dir_read_loop fuel (v1.buffer (dir.rw_offset + 13))
              (name_length + copied.2) { info with name := copied.1 }
              next.2.1 next.2.2.1 next.2.2.2
          else
            if lfn_crc ≠ 0 ∧ lfn_crc ≠ fat_dir_sfn_crc v1.buffer (dir.rw_offset + 0) then
              some (.error, info, dir, v1, d1)
            else
              let name1 := if lfn_crc ≠ 0 then info.name
                else fun j => if j < 11 then v1.buffer (dir.rw_offset + j) else info.name j
              let nl1 := if lfn_crc ≠ 0 then name_length else name_length + 11
              let info1 : info_s :=
                { name := name1, name_length := nl1,
                  «attribute» := v1.buffer (dir.rw_offset + 11),
                  c_time_tenth := v1.buffer (dir.rw_offset + 13),
                  c_time := fat_load16 v1.buffer (dir.rw_offset + 14),
                  c_date := fat_load16 v1.buffer (dir.rw_offset + 16),
                  w_time := fat_load16 v1.buffer (dir.rw_offset + 22),
                  w_date := fat_load16 v1.buffer (dir.rw_offset + 24),
                  a_date := fat_load16 v1.buffer (dir.rw_offset + 18),
                  size := fat_load32 v1.buffer (dir.rw_offset + 28) }
              let next := fat_dir_get_next dir v1 d1
              some (.ok, info1, next.2.1, next.2.2.1, next.2.2.2)
        else
          let next := fat_dir_get_next dir v1 d1
          fat_dir_read_loop fuel lfn_crc name_length info next.2.1 next.2.2.1 next.2.2.2

/-- `fat_dir_read`: the loop started with `lfn_crc = 0`, `name_length = 0`. -/
def fat_dir_read (fuel : Nat) (dir : dir_s) (info : info_s)
    (vol : volume_s) (d : disk_s) :
    Option (fstatus × info_s × dir_s × volume_s × disk_s) :=
  fat_dir_read_loop fuel 0 0 info dir vol d

theorem fat_dir_get_next_in_sector (dir : dir_s) (vol : volume_s) (d : disk_s)
    (h : ¬ dir.rw_offset + 32 ≥ vol.sector_size) :
    fat_dir_get_next dir vol d =
      (true, { dir with rw_offset := dir.rw_offset + 32 }, vol, d) := by
  simp only [fat_dir_get_next, if_neg h]

/-- An in-use LFN slot at byte offset `off` of sector image `s` whose stored
checksum byte (offset 13) is nonzero and differs from `crc`. -/
def lfn_slot_bad (s : Nat → Nat) (off crc : Nat) : Prop :=
  s (off + 0) ≠ 0 ∧ s (off + 0) ≠ 229 ∧ s (off + 0) ≠ 5 ∧
  s (off + 11) &&& 15 = 15 ∧ s (off + 13) ≠ 0 ∧ s (off + 13) ≠ crc

/-- An in-use non-LFN (SFN) record at byte offset `off` of sector image `s`. -/
def sfn_entry_plain (s : Nat → Nat) (off : Nat) : Prop :=
  s (off + 0) ≠ 0 ∧ s (off + 0) ≠ 229 ∧ s (off + 0) ≠ 5 ∧
  ¬ (s (off + 11) &&& 15 = 15)

theorem fat_dir_read_loop_lfn_step (fuel lfn_crc0 nl0 : Nat) (info : info_s)
    (dir : dir_s) (vol : volume_s) (d : disk_s)
    (hclean : cache_clean vol d) (hio : read_all_ok d)
    (hssz : vol.sector_size = 512) (hrw : dir.rw_offset + 32 < 512)
    (h0 : d.data dir.sector (dir.rw_offset + 0) ≠ 0)
    (h229 : d.data dir.sector (dir.rw_offset + 0) ≠ 229)
    (h5 : d.data dir.sector (dir.rw_offset + 0) ≠ 5)
    (hattr : d.data dir.sector (dir.rw_offset + 11) &&& 15 = 15) :
    fat_dir_read_loop (fuel + 1) lfn_crc0 nl0 info dir vol d =
      fat_dir_read_loop fuel (d.data dir.sector (dir.rw_offset + 13))
        (nl0 + (fat_dir_read_lfn_copy (fun i => d.data dir.sector (dir.rw_offset + i))
          info.name
          ((13 * ((d.data dir.sector (dir.rw_offset + 0) &&& 31) + 255)) % 256)).2)
        { info with name :=
            (fat_dir_read_lfn_copy (fun i => d.data dir.sector (dir.rw_offset + i))
              info.name
              ((13 * ((d.data dir.sector (dir.rw_offset + 0) &&& 31) + 255)) % 256)).1 }
        { dir with rw_offset := dir.rw_offset + 32 }
        (cache_load vol d dir.sector) d := by
  simp only [fat_dir_read_loop]
  rw [fat_read_clean vol d dir.sector hclean.1 (hio _)]
  simp only [cache_load_buffer vol d dir.sector hclean.2]
  rw [if_neg h0, if_pos ⟨h229, h5⟩, if_pos hattr,
    fat_dir_get_next_in_sector dir (cache_load vol d dir.sector) d
      (by rw [cache_load_sector_size, hssz]; omega)]

theorem fat_dir_read_loop_sfn_crc_error (fuel lfn_crc0 nl0 : Nat) (info : info_s)
    (dir : dir_s) (vol : volume_s) (d : disk_s)
    (hclean : cache_clean vol d) (hio : read_all_ok d)
    (h0 : d.data dir.sector (dir.rw_offset + 0) ≠ 0)
    (h229 : d.data dir.sector (dir.rw_offset + 0) ≠ 229)
    (h5 : d.data dir.sector (dir.rw_offset + 0) ≠ 5)
    (hattr : ¬ (d.data dir.sector (dir.rw_offset + 11) &&& 15 = 15))
    (hcrc0 : lfn_crc0 ≠ 0)
    (hcrc : lfn_crc0 ≠ fat_dir_sfn_crc (d.data dir.sector) (dir.rw_offset + 0)) :
    fat_dir_read_loop (fuel + 1) lfn_crc0 nl0 info dir vol d =
      some (.error, info, dir, cache_load vol d dir.sector, d) := by
  simp only [fat_dir_read_loop]
  rw [fat_read_clean vol d dir.sector hclean.1 (hio _)]
  simp only [cache_load_buffer vol d dir.sector hclean.2]
  rw [if_neg h0, if_pos ⟨h229, h5⟩, if_neg hattr, if_pos ⟨hcrc0, hcrc⟩]

theorem fat_dir_read_loop_crc_mismatch (d : disk_s) :
    ∀ (m : Nat) (dir : dir_s) (vol : volume_s) (lfn_crc0 nl0 : Nat) (info : info_s)
      (fuel : Nat),
      cache_clean vol d → read_all_ok d → vol.sector_size = 512 →
      dir.rw_offset + 32 * (m + 1) + 32 ≤ 512 →
      (∀ j < m + 1, lfn_slot_bad (d.data dir.sector) (dir.rw_offset + 32 * j)
        (fat_dir_sfn_crc (d.data dir.sector) (dir.rw_offset + 32 * (m + 1) + 0))) →
      sfn_entry_plain (d.data dir.sector) (dir.rw_offset + 32 * (m + 1)) →
      m + 2 ≤ fuel →
      (fat_dir_read_loop fuel lfn_crc0 nl0 info dir vol d).map Prod.fst =
        some .error := by
  intro m
  induction m with
  | zero =>
    intro dir vol lfn_crc0 nl0 info fuel hclean hio hssz hbound hslots hsfn hfuel
    obtain ⟨f, rfl⟩ : ∃ f, fuel = f + 1 + 1 := ⟨fuel - 2, by omega⟩
    have hslot0 := hslots 0 Nat.one_pos
    rw [show dir.rw_offset + 32 * 0 = dir.rw_offset from by ring] at hslot0
    rw [show dir.rw_offset + 32 * (0 + 1) + 0 = dir.rw_offset + 32 + 0 from by ring]
      at hslot0
    obtain ⟨s0, s229, s5, sattr, scrc0, scrc⟩ := hslot0
    rw [show dir.rw_offset + 32 * (0 + 1) = dir.rw_offset + 32 from by ring] at hsfn
    obtain ⟨t0, t229, t5, tattr⟩ := hsfn
    rw [fat_dir_read_loop_lfn_step (f + 1) lfn_crc0 nl0 info dir vol d hclean hio hssz
      (by omega) s0 s229 s5 sattr]
    rw [fat_dir_read_loop_sfn_crc_error f _ _ _
      { dir with rw_offset := dir.rw_offset + 32 } (cache_load vol d dir.sector) d
      (cache_load_clean vol d _ hclean) hio t0 t229 t5 tattr scrc0 scrc]
    rfl
  | succ m ihm =>
    intro dir vol lfn_crc0 nl0 info fuel hclean hio hssz hbound hslots hsfn hfuel
    obtain ⟨f, rfl⟩ : ∃ f, fuel = f + 1 := ⟨fuel - 1, by omega⟩
    have hslot0 := hslots 0 (Nat.succ_pos _)
    rw [show dir.rw_offset + 32 * 0 = dir.rw_offset from by ring] at hslot0
    obtain ⟨s0, s229, s5, sattr, _, _⟩ := hslot0
    rw [fat_dir_read_loop_lfn_step f lfn_crc0 nl0 info dir vol d hclean hio hssz
      (by omega) s0 s229 s5 sattr]
    refine ihm { dir with rw_offset := dir.rw_offset + 32 }
      (cache_load vol d dir.sector) _ _ _ f
      (cache_load_clean vol d _ hclean) hio
      (by rw [cache_load_sector_size]; exact hssz)
      (by dsimp only; omega) ?_ ?_ (by omega)
    · intro j hj
      have hslot := hslots (j + 1) (by omega)
      have e1 : dir.rw_offset + 32 * (j + 1) = dir.rw_offset + 32 + 32 * j := by ring
      have e2 : dir.rw_offset + 32 * (m + 1 + 1) + 0 =
          dir.rw_offset + 32 + 32 * (m + 1) + 0 := by ring
      rw [e1, e2] at hslot
      exact hslot
    · have e3 : dir.rw_offset + 32 * (m + 1 + 1) = dir.rw_offset + 32 + 32 * (m + 1) := by
        ring
      rw [e3] at hsfn
      exact hsfn

/-- C10 (amended): if an in-use SFN record is preceded by `k ≥ 1` LFN slots
whose stored checksum bytes are nonzero and differ from `sfn_crc` of the
SFN's 11-byte name (all within the cursor's sector), `fat_dir_read` returns
the ERROR status for that entry instead of delivering an info record. -/
theorem fat_dir_read_lfn_crc_mismatch_errors (dir : dir_s) (vol : volume_s)
    (d : disk_s) (info : info_s) (k fuel : Nat)
    (hclean : cache_clean vol d) (hio : read_all_ok d)
    (hssz : vol.sector_size = 512)
    (hk : 1 ≤ k)
    (hbound : dir.rw_offset + 32 * k + 32 ≤ 512)
    (hslots : ∀ j < k, lfn_slot_bad (d.data dir.sector) (dir.rw_offset + 32 * j)
      (fat_dir_sfn_crc (d.data dir.sector) (dir.rw_offset + 32 * k + 0)))
    (hsfn : sfn_entry_plain (d.data dir.sector) (dir.rw_offset + 32 * k))
    (hfuel : k + 1 ≤ fuel) :
    (fat_dir_read fuel dir info vol d).map Prod.fst = some .error := by
  obtain ⟨m, rfl⟩ : ∃ m, k = m + 1 := ⟨k - 1, by omega⟩
  exact fat_dir_read_loop_crc_mismatch d m dir vol 0 0 info fuel hclean hio hssz
    hbound hslots hsfn (by omega)

/-- An all-zero info record, as a caller would pass one in. -/
def info_empty : info_s :=
  { name := fun _ => 0, name_length := 0, «attribute» := 0, c_time_tenth := 0,
    c_time := 0, c_date := 0, w_time := 0, w_date := 0, a_date := 0, size := 0 }

/-- Directory cursor at the first entry of sector 5. -/
def dir_c10 : dir_s :=
  { start_sect := 5, sector := 5, cluster := 2, rw_offset := 0, size := 0 }

/-- Sector 5 holds one LFN slot (sequence `0x41`, attribute `0x0F`) whose
stored checksum byte is 0, followed by an in-use SFN record named
`"AAAAAAAAAAA"` (attribute `0x20`). -/
def disk_c10 : disk_s :=
  { data := fun lba i =>
      if lba = 5 then
        if i = 0 then 65
        else if i = 11 then 15
        else if 32 ≤ i ∧ i ≤ 42 then 65
        else if i = 43 then 32
        else 0
      else 0,
    readOk := fun _ => true, writeOk := fun _ => true }

/-- Same layout, but the slot's stored checksum byte is 7 (nonzero and still
wrong). -/
def disk_c10w : disk_s :=
  { data := fun lba i =>
      if lba = 5 then
        if i = 0 then 65
        else if i = 11 then 15
        else if i = 13 then 7
        else if 32 ≤ i ∧ i ≤ 42 then 65
        else if i = 43 then 32
        else 0
      else 0,
    readOk := fun _ => true, writeOk := fun _ => true }

/-- C10 counterexample: an LFN slot whose stored checksum byte is 0 differs
from the following SFN's `sfn_crc`, yet `fat_dir_read` does not return
ERROR — the `if (lfn_crc)` guard treats the zero checksum as "no LFN seen"
and the record is delivered with OK. -/
theorem fat_dir_read_zero_checksum_not_error :
    disk_c10.data 5 13 = 0 ∧
    fat_dir_sfn_crc (disk_c10.data 5) 32 ≠ 0 ∧
    (fat_dir_read 2 dir_c10 info_empty vol_demo disk_c10).map Prod.fst =
      some .ok := by
  refine ⟨rfl, by decide, by decide⟩

/-- C10 witness: the nonzero wrong checksum (7) at the same layout makes
`fat_dir_read` return ERROR. -/
theorem fat_dir_read_lfn_crc_mismatch_errors_witness :
    (fat_dir_read 2 dir_c10 info_empty vol_demo disk_c10w).map Prod.fst =
      some .error :=
  fat_dir_read_lfn_crc_mismatch_errors dir_c10 vol_demo disk_c10w info_empty 1 2
    ⟨rfl, rfl⟩ (fun _ => rfl) rfl (by decide) (by decide)
    (by simp only [lfn_slot_bad]; decide) (by simp only [sfn_entry_plain]; decide)
    (by decide)

/-! ### C1: `fat_follow_path` seeding -/

/-- `volume_get`: linear search of the mounted-volume list by letter
(the source walks the linked list from `volume_base`). -/
def volume_get : List volume_s → Nat → Option volume_s
  | [], _ => none
  | vol :: rest, letter =>
    if vol.letter = letter then some vol else volume_get rest letter

/-- The do-while body of `fat_dir_sfn_cmp`, comparing `count` characters
case-insensitively (lowercase ASCII is folded by subtracting 32). -/
def fat_dir_sfn_cmp_loop (sfn : Nat → Nat) (sfnOff : Nat) (name : List Nat)
    (nameOff : Nat) : Nat → Bool
  | 0 => true
  | count + 1 =>
    let tmp_char := name.getD nameOff 0
    let tmp_char := if 97 ≤ tmp_char ∧ tmp_char ≤ 122 then tmp_char - 32 else tmp_char
    if tmp_char ≠ sfn sfnOff then false
    else fat_dir_sfn_cmp_loop sfn (sfnOff + 1) name (nameOff + 1) count

/-- `fat_dir_sfn_cmp`: compare at most 8 characters; the C do-while
decrements the u8 `size` after the first pass, so a size of 0 wraps and
compares 256 characters. -/
def fat_dir_sfn_cmp (sfn : Nat → Nat) (sfnOff : Nat) (name : List Nat)
    (size : Nat) : Bool :=
  let size := if size > 8 then 8 else size
  fat_dir_sfn_cmp_loop sfn sfnOff name 0 (if size = 0 then 256 else size)

/-- The 13-slot loop of `fat_dir_lfn_cmp`: stop (accepting) at a 0x00/0xFF
pad byte, reject on the first difference. -/
def fat_dir_lfn_cmp_loop (lfn : Nat → Nat) (base : Nat) (name : List Nat)
    (name_off : Nat) : Nat → Nat → Bool
  | _, 0 => true
  | i, rem + 1 =>
    let c := lfn (base + lfn_offsets.getD i 0)
    if c = 0 ∨ c = 255 then true
    else if c ≠ name.getD (name_off + i) 0 then false
    else fat_dir_lfn_cmp_loop lfn base name name_off (i + 1) rem

/-- `fat_dir_lfn_cmp` on the entry at byte offset `base`; `name_off` is the
u8 computation `13 * ((sequence & 0x1F) - 1)` (the `size` parameter of the C
function is unused by its body and omitted). -/
def fat_dir_lfn_cmp (lfn : Nat → Nat) (base : Nat) (name : List Nat) : Bool :=
  let name_off := (13 * ((lfn (base + 0) &&& 31) + 255)) % 256
  fat_dir_lfn_cmp_loop lfn base name name_off 0 13

/-- The `while (1)` loop of `fat_dir_search`, with `fuel`.  `lfn_match` is an
uninitialized C local first written on an LFN mismatch or after an unmatched
SFN; it is modelled as initially 1 (true). -/
def fat_dir_search_loop (name : List Nat) (size : Nat) :
    Nat → Nat → Bool → dir_s → volume_s → disk_s → Bool × dir_s × volume_s × disk_s
  | 0, _, _, dir, vol, d => (false, dir, vol, d)
  | fuel + 1, lfn_crc, lfn_match, dir, vol, d =>
    match fat_read vol d dir.sector with
    | (false, v1, d1) => (false, dir, v1, d1)
    | (true, v1, d1) =>
      let sfn_tmp := v1.buffer (dir.rw_offset + 0)
      if sfn_tmp = 0 then (false, dir, v1, d1)
      else
        if ¬ (sfn_tmp = 0 ∨ sfn_tmp = 5 ∨ sfn_tmp = 229) then
          if v1.buffer (dir.rw_offset + 11) &&& 15 = 15 then
            let lfn_match1 :=
              if ¬ fat_dir_lfn_cmp v1.buffer dir.rw_offset name then false else lfn_match
            let lfn_crc1 := v1.buffer (dir.rw_offset + 13)
            match fat_dir_get_next dir v1 d1 with
            | (false, dir2, v2, d2) => (false, dir2, v2, d2)
            | (true, dir2, v2, d2) =>
              fat_dir_search_loop name size fuel lfn_crc1 lfn_match1 dir2 v2 d2
          else
            let matched :=
              if lfn_crc ≠ 0 ∧ lfn_match then
                decide (lfn_crc = fat_dir_sfn_crc v1.buffer (dir.rw_offset + 0))
              else fat_dir_sfn_cmp v1.buffer (dir.rw_offset + 0) name size
            if matched then
              let cluster := fat_load16 v1.buffer (dir.rw_offset + 20) <<< 16 |||
                fat_load16 v1.buffer (dir.rw_offset + 26)
              (true, { dir with
                        cluster := cluster,
                        sector := fat_clust_to_sect v1 cluster,
                        start_sect := fat_clust_to_sect v1 cluster,
                        size := fat_load32 v1.buffer (dir.rw_offset + 28),
                        rw_offset := 0 }, v1, d1)
            else
              match fat_dir_get_next dir v1 d1 with
              | (false, dir2, v2, d2) => (false, dir2, v2, d2)
              | (true, dir2, v2, d2) =>
                fat_dir_search_loop name size fuel 0 true dir2 v2 d2
        else
          match fat_dir_get_next dir v1 d1 with
          | (false, dir2, v2, d2) => (false, dir2, v2, d2)
          | (true, dir2, v2, d2) =>
            fat_dir_search_loop name size fuel lfn_crc lfn_match dir2 v2 d2

/-- `fat_dir_search`: rewind the cursor to the directory start when it moved,
then scan for the name. -/
def fat_dir_search (fuel : Nat) (dir : dir_s) (name : List Nat) (size : Nat)
    (vol : volume_s) (d : disk_s) : Bool × dir_s × volume_s × disk_s :=
  let dir0 :=
    if dir.start_sect ≠ dir.sector then
      { dir with sector := dir.start_sect,
                 cluster := fat_sect_to_clust vol dir.start_sect,
                 rw_offset := 0 }
    else dir
  fat_dir_search_loop name size fuel 0 true dir0 vol d

/-- `while (*path && *path != '/') path++`: drop characters up to the next
'/' or the end of the string (paths are NUL-free lists; the list end is the
terminator). -/
def fat_path_skip : List Nat → List Nat
  | [] => []
  | c :: rest => if c = 47 then c :: rest else fat_path_skip rest

/-- The fragment scan of `fat_follow_path`: the fragment length up to the
next '/' or the end; `none` when a '.' is met inside the fragment (the
resolver then stops successfully at the containing directory). -/
def fat_path_frag : List Nat → Option Nat
  | [] => some 0
  | c :: rest =>
    if c = 47 then some 0
    else if c = 46 then none
    else (fat_path_frag rest).map (· + 1)

/-- The outer fragment loop of `fat_follow_path`.  A failed directory search
is the source's bare `return 0`, modelled as `pathErr` (the spec: "Failure
maps to PATH_ERR"). -/
def fat_follow_path_loop (sfuel : Nat) :
    Nat → List Nat → dir_s → volume_s → disk_s → fstatus × dir_s × volume_s × disk_s
  | 0, _, dir, vol, d => (.error, dir, vol, d)
  | fuel + 1, path, dir, vol, d =>
    match fat_path_skip path with
    | [] => (.ok, dir, vol, d)
    | _ :: rest =>
      match rest with
      | [] => (.ok, dir, vol, d)
      | _ =>
        match fat_path_frag rest with
        | none => (.ok, dir, vol, d)
        | some frag_size =>
          match fat_dir_search sfuel dir rest frag_size vol d with
          | (false, dir2, v2, d2) => (.pathErr, dir2, v2, d2)
          | (true, dir2, v2, d2) =>
            fat_follow_path_loop sfuel fuel rest dir2 v2 d2

/-- `fat_follow_path`: look the volume up by the path's first character,
seed the cursor at the root — `sector = start_sect = root_lba`,
`rw_offset = 0`, and `cluster = fat_clust_to_sect(vol, root_lba)` exactly as
the source computes it — check `":"` and `"/"`, then resolve fragment by
fragment.  The volume state the walk mutates is returned (`none` when no
volume matched). -/
def fat_follow_path (fuel sfuel : Nat) (vols : List volume_s) (dir : dir_s)
    (path : List Nat) (d : disk_s) :
    fstatus × dir_s × Option volume_s × disk_s :=
  match volume_get vols (path.getD 0 0) with
  | none => (.noVolume, dir, none, d)
  | some vol =>
    let dir1 := { dir with sector := vol.root_lba,
                           start_sect := vol.root_lba,
                           cluster := fat_clust_to_sect vol vol.root_lba,
                           rw_offset := 0 }
    if path.getD 1 0 ≠ 58 then (.pathErr, dir1, some vol, d)
    else if path.getD 2 0 ≠ 47 then (.pathErr, dir1, some vol, d)
    else
      match fat_follow_path_loop sfuel fuel (path.drop 2) dir1 vol d with
      | (s, dir2, v2, d2) => (s, dir2, some v2, d2)

/-- A blank caller-provided directory cursor. -/
def dir_blank : dir_s :=
  { start_sect := 0, sector := 0, cluster := 0, rw_offset := 0, size := 0 }

/-- The path `"C:/"`. -/
def path_c1 : List Nat := [67, 58, 47]

/-- C1: resolving `"C:/"` on the demo volume (root cluster 2, root LBA 4128)
returns OK with the cursor seeded at the root: `sector`, `start_sect` and
`rw_offset` are as claimed, but `cluster` is
`fat_clust_to_sect(vol, root_lba) = 37136` — the source applies the
cluster→sector map to a sector number — instead of the root cluster
`fat_sect_to_clust(vol, root_lba) = 2`. -/
theorem fat_follow_path_seed_bug :
    (fat_follow_path 1 1 [vol_demo] dir_blank path_c1 disk_c2).1 = .ok ∧
    (fat_follow_path 1 1 [vol_demo] dir_blank path_c1 disk_c2).2.1.sector = 4128 ∧
    (fat_follow_path 1 1 [vol_demo] dir_blank path_c1 disk_c2).2.1.start_sect = 4128 ∧
    (fat_follow_path 1 1 [vol_demo] dir_blank path_c1 disk_c2).2.1.rw_offset = 0 ∧
    (fat_follow_path 1 1 [vol_demo] dir_blank path_c1 disk_c2).2.1.cluster = 37136 ∧
    fat_sect_to_clust vol_demo vol_demo.root_lba = 2 ∧
    (fat_follow_path 1 1 [vol_demo] dir_blank path_c1 disk_c2).2.1.cluster ≠
      fat_sect_to_clust vol_demo vol_demo.root_lba := by
  refine ⟨rfl, rfl, rfl, rfl, by decide, by decide, by decide⟩

/-! ### C3 / C9: `fat_get_cluster` -/

theorem fat_store32_get_ne (b : Nat → Nat) (off v x : Nat)
    (h1 : x ≠ off) (h2 : x ≠ off + 1) (h3 : x ≠ off + 2) (h4 : x ≠ off + 3) :
    fat_store32 b off v x = b x := by
  unfold fat_store32
  rw [if_neg h1, if_neg h2, if_neg h3, if_neg h4]

theorem fat_load32_store32_same (b : Nat → Nat) (off v : Nat) :
    fat_load32 (fat_store32 b off v) off = v % 4294967296 := by
  unfold fat_load32 fat_store32
  rw [if_pos rfl]
  rw [if_neg (by omega), if_pos rfl]
  rw [if_neg (by omega), if_neg (by omega), if_pos rfl]
  rw [if_neg (by omega), if_neg (by omega), if_neg (by omega), if_pos rfl]
  omega

theorem fat_load32_store32_ne (b : Nat → Nat) (off1 v off2 : Nat)
    (h : off2 + 4 ≤ off1 ∨ off1 + 4 ≤ off2) :
    fat_load32 (fat_store32 b off1 v) off2 = fat_load32 b off2 := by
  unfold fat_load32
  rw [fat_store32_get_ne b off1 v off2 (by omega) (by omega) (by omega) (by omega),
    fat_store32_get_ne b off1 v (off2 + 1) (by omega) (by omega) (by omega) (by omega),
    fat_store32_get_ne b off1 v (off2 + 2) (by omega) (by omega) (by omega) (by omega),
    fat_store32_get_ne b off1 v (off2 + 3) (by omega) (by omega) (by omega) (by omega)]

theorem fat_read_hit (vol : volume_s) (d : disk_s) (lba : Nat)
    (h : vol.buffer_lba = lba) : fat_read vol d lba = (true, vol, d) := by
  simp [fat_read, h]

theorem fat_read_dirty_miss (vol : volume_s) (d : disk_s) (lba : Nat)
    (hm : vol.buffer_lba ≠ lba) (hd : vol.buffer_dirty = true)
    (hw : d.writeOk vol.buffer_lba = true) (hr : d.readOk lba = true) :
    fat_read vol d lba =
      (true,
        { vol with
            buffer := (disk_write_sector d vol.buffer_lba vol.buffer).data lba,
            buffer_lba := lba, buffer_dirty := false },
        disk_write_sector d vol.buffer_lba vol.buffer) := by
  unfold fat_read fat_flush
  rw [if_neg hm]
  rw [if_pos hd, if_pos hw]
  simp [disk_write_sector, hr]

/-- The result of an allocation call: the source returns 0 (`fail`) on each
failed cache read, and on the path that completes the allocation it has no
return statement at all — `undef` marks that fall off the end of the
function (in C the returned value is indeterminate there).  `ok`, an
explicit success return, never occurs in the source. -/
inductive gc_ret where
  | ok
  | fail
  | undef
deriving DecidableEq, Repr

/-- The free-entry scan of `fat_get_cluster`, `fuel`-bounded (`none` = fuel
ran out).  `.inl` is the C `return 0` on a failed cache read; `.inr` carries
the `break` state: the sector/byte-offset of the *second* free entry found,
and the first free entry's cluster number already written through the
out-parameter.  An entry is free iff its low 7 bits are zero (the source's
`(entry & 0b1111111) == 0`). -/
def fat_get_cluster_scan :
    Nat → Nat → Nat → Bool → Nat → volume_s → disk_s →
    Option ((Nat × volume_s × disk_s) ⊕ (Nat × Nat × Nat × volume_s × disk_s))
  | 0, _, _, _, _, _, _ => none
  | fuel + 1, sector, rw, match_found, cluster, vol, d =>
    match fat_read vol d sector with
    | (false, v1, d1) => some (.inl (cluster, v1, d1))
    | (true, v1, d1) =>
      let entry := fat_load32 v1.buffer rw
      if entry &&& 127 = 0 then
        if match_found then
          some (.inr (sector, rw, cluster, v1, d1))
        else
          let cluster1 := 128 * (sector - vol.fat_lba) + rw / 4
          let v2 := { v1 with buffer := fat_store32 v1.buffer rw 268435455,
                              buffer_dirty := true }
          if rw + 4 ≥ vol.sector_size then
            fat_get_cluster_scan fuel (sector + 1) 0 true cluster1 v2 d1
          else
            fat_get_cluster_scan fuel sector (rw + 4) true cluster1 v2 d1
      else
        if rw + 4 ≥ vol.sector_size then
          fat_get_cluster_scan fuel (sector + 1) 0 match_found cluster v1 d1
        else
          fat_get_cluster_scan fuel sector (rw + 4) match_found cluster v1 d1

/-- `fat_get_cluster`: read FSInfo (`next_free`@492, `free_count`@488, the
spec's documented offsets; fat32.h is not in src/), scan the FAT from
`next_free`, mark the first free entry with `0x0FFFFFFF`, and store the
second free entry's number and the decremented count back into FSInfo (u32
decrement), flushing.  The final `fat_flush`'s result is ignored by the
source, which then falls off the end of the function (`undef`). -/
def fat_get_cluster (fuel : Nat) (cluster_in : Nat) (vol : volume_s) (d : disk_s) :
    Option (gc_ret × Nat × volume_s × disk_s) :=
  match fat_read vol d vol.info_lba with
  | (false, v1, d1) => some (.fail, cluster_in, v1, d1)
  | (true, v1, d1) =>
    let next_free := fat_load32 v1.buffer 492
    let tot_free := fat_load32 v1.buffer 488
    match fat_get_cluster_scan fuel (vol.fat_lba + next_free / 128)
      (next_free % 128 * 4) false cluster_in v1 d1 with
    | none => none
    | some (.inl (cl, v2, d2)) => some (.fail, cl, v2, d2)
    | some (.inr (sector2, rw2, cl, v2, d2)) =>
      match fat_read v2 d2 vol.info_lba with
      | (false, v3, d3) => some (.fail, cl, v3, d3)
      | (true, v3, d3) =>
        let v4 := { v3 with
          buffer := fat_store32
            (fat_store32 v3.buffer 492 (128 * (sector2 - vol.fat_lba) + rw2 / 4))
            488 ((tot_free + 4294967295) % 4294967296),
          buffer_dirty := true }
        let r := fat_flush v4 d3
        some (.undef, cl, r.2.1, r.2.2)

/-- The FAT-sector buffer holding the end-of-chain mark written into the
first free entry. -/
def gc_marked_buffer (d : disk_s) (L c1 : Nat) : Nat → Nat :=
  fat_store32 (d.data (L + c1 / 128)) (c1 % 128 * 4) 268435455

/-- The disk once the marked FAT sector has been written back. -/
def gc_flushed_disk (d : disk_s) (L c1 : Nat) : disk_s :=
  disk_write_sector d (L + c1 / 128) (gc_marked_buffer d L c1)

theorem fat_get_cluster_scan_after_mark (d : disk_s) (L c1 c2 : Nat)
    (hio : read_all_ok d) (hwo : write_all_ok d)
    (hfree2 : disk_fat_entry d L c2 &&& 127 = 0)
    (hmid : ∀ x, c1 < x → x < c2 → ¬ (disk_fat_entry d L x &&& 127 = 0)) :
    ∀ (fuel p : Nat) (vol : volume_s) (dS : disk_s),
      c1 < p → p ≤ c2 →
      vol.fat_lba = L → vol.sector_size = 512 →
      ((vol.buffer = gc_marked_buffer d L c1 ∧ vol.buffer_lba = L + c1 / 128 ∧
        vol.buffer_dirty = true ∧ dS = d) ∨
       (cache_clean vol (gc_flushed_disk d L c1) ∧ dS = gc_flushed_disk d L c1 ∧
        c1 / 128 < p / 128)) →
      c2 - p + 1 ≤ fuel →
      ∃ (v2 : volume_s) (dX : disk_s),
        fat_get_cluster_scan fuel (L + p / 128) (p % 128 * 4) true c1 vol dS =
          some (.inr (L + c2 / 128, c2 % 128 * 4, c1, v2, dX)) ∧
        ((dX = d ∧ v2.buffer = gc_marked_buffer d L c1 ∧
          v2.buffer_lba = L + c1 / 128 ∧ v2.buffer_dirty = true) ∨
         (dX = gc_flushed_disk d L c1 ∧ cache_clean v2 (gc_flushed_disk d L c1) ∧
          v2.buffer_lba = L + c2 / 128)) := by
  intro fuel
  induction fuel with
  | zero =>
    intro p vol dS h1 h2 _ _ _ hf
    omega
  | succ fuel ih =>
    intro p vol dS hc1p hpc2 hL hssz hstate hfuel
    have hio' : read_all_ok (gc_flushed_disk d L c1) := fun l => hio l
    rcases hstate with ⟨hbuf, hlba, hdirty, hdS⟩ | ⟨hcl, hdS, hcross⟩
    · -- dirty marked buffer, scanning over the original disk
      rw [hdS]
      by_cases hps : p / 128 = c1 / 128
      · -- still inside the marked sector: cache hit
        have hhit : vol.buffer_lba = L + p / 128 := by rw [hlba, hps]
        have hentry : fat_load32 vol.buffer (p % 128 * 4) = disk_fat_entry d L p := by
          rw [hbuf]
          unfold gc_marked_buffer
          rw [fat_load32_store32_ne _ _ _ _ (by omega)]
          unfold disk_fat_entry
          rw [hps]
        simp only [fat_get_cluster_scan]
        rw [fat_read_hit vol d (L + p / 128) hhit]
        dsimp only
        rw [hentry]
        by_cases hpc : p = c2
        · subst hpc
          rw [if_pos hfree2]
          exact ⟨vol, d, by simp, Or.inl ⟨rfl, hbuf, hlba, hdirty⟩⟩
        · have hnf : ¬ (disk_fat_entry d L p &&& 127 = 0) := hmid p hc1p (by omega)
          rw [if_neg hnf]
          by_cases h127 : p % 128 = 127
          · rw [if_pos (by rw [hssz]; omega)]
            have e1 : L + p / 128 + 1 = L + (p + 1) / 128 := by omega
            have e2 : (0 : Nat) = (p + 1) % 128 * 4 := by omega
            rw [e1, e2]
            exact ih (p + 1) vol d (by omega) (by omega) hL hssz
              (Or.inl ⟨hbuf, hlba, hdirty, rfl⟩) (by omega)
          · rw [if_neg (by rw [hssz]; omega)]
            have e1 : L + p / 128 = L + (p + 1) / 128 := by omega
            have e2 : p % 128 * 4 + 4 = (p + 1) % 128 * 4 := by omega
            rw [e1, e2]
            exact ih (p + 1) vol d (by omega) (by omega) hL hssz
              (Or.inl ⟨hbuf, hlba, hdirty, rfl⟩) (by omega)
      · -- the scan has left the marked sector: this read flushes the mark
        have hmiss : vol.buffer_lba ≠ L + p / 128 := by rw [hlba]; omega
        simp only [fat_get_cluster_scan]
        rw [fat_read_dirty_miss vol d (L + p / 128) hmiss hdirty (hwo _) (hio _)]
        dsimp only
        have hdisk : disk_write_sector d vol.buffer_lba vol.buffer =
            gc_flushed_disk d L c1 := by
          rw [hlba, hbuf]; rfl
        rw [hdisk]
        have hdata : (gc_flushed_disk d L c1).data (L + p / 128) = d.data (L + p / 128) := by
          unfold gc_flushed_disk disk_write_sector
          dsimp only
          rw [if_neg (by omega)]
        rw [hdata]
        have hentry : fat_load32 (d.data (L + p / 128)) (p % 128 * 4) =
            disk_fat_entry d L p := rfl
        rw [hentry]
        by_cases hpc : p = c2
        · subst hpc
          rw [if_pos hfree2]
          refine ⟨{ vol with buffer := d.data (L + p / 128), buffer_lba := L + p / 128, buffer_dirty := false }, gc_flushed_disk d L c1, by simp, Or.inr ⟨rfl, ⟨rfl, ?_⟩, rfl⟩⟩
          dsimp only
          rw [hdata]
        · have hnf : ¬ (disk_fat_entry d L p &&& 127 = 0) := hmid p hc1p (by omega)
          rw [if_neg hnf]
          have hclean1 : cache_clean
              { vol with buffer := d.data (L + p / 128),
                         buffer_lba := L + p / 128, buffer_dirty := false }
              (gc_flushed_disk d L c1) := by
            refine ⟨rfl, ?_⟩
            dsimp only
            rw [hdata]
          by_cases h127 : p % 128 = 127
          · rw [if_pos (by rw [hssz]; omega)]
            have e1 : L + p / 128 + 1 = L + (p + 1) / 128 := by omega
            have e2 : (0 : Nat) = (p + 1) % 128 * 4 := by omega
            rw [e1, e2]
            exact ih (p + 1) _ _ (by omega) (by omega) hL hssz
              (Or.inr ⟨hclean1, rfl, by omega⟩) (by omega)
          · rw [if_neg (by rw [hssz]; omega)]
            have e1 : L + p / 128 = L + (p + 1) / 128 := by omega
            have e2 : p % 128 * 4 + 4 = (p + 1) % 128 * 4 := by omega
            rw [e1] at hclean1
            rw [e1, e2]
            exact ih (p + 1) _ _ (by omega) (by omega) hL hssz
              (Or.inr ⟨hclean1, rfl, by omega⟩) (by omega)
    · -- clean state over the flushed disk
      rw [hdS]
      simp only [fat_get_cluster_scan]
      rw [fat_read_clean vol (gc_flushed_disk d L c1) (L + p / 128) hcl.1 (hio' _)]
      dsimp only
      have hdata : (gc_flushed_disk d L c1).data (L + p / 128) = d.data (L + p / 128) := by
        unfold gc_flushed_disk disk_write_sector
        dsimp only
        rw [if_neg (by omega)]
      have hentry : fat_load32 (cache_load vol (gc_flushed_disk d L c1)
          (L + p / 128)).buffer (p % 128 * 4) = disk_fat_entry d L p := by
        rw [cache_load_buffer _ _ _ hcl.2, hdata]
        rfl
      rw [hentry]
      by_cases hpc : p = c2
      · subst hpc
        rw [if_pos hfree2]
        refine ⟨cache_load vol (gc_flushed_disk d L c1) (L + p / 128),
          gc_flushed_disk d L c1, by simp,
          Or.inr ⟨rfl, cache_load_clean vol (gc_flushed_disk d L c1) (L + p / 128) hcl,
            cache_load_buffer_lba vol (gc_flushed_disk d L c1) (L + p / 128)⟩⟩
      · have hnf : ¬ (disk_fat_entry d L p &&& 127 = 0) := hmid p hc1p (by omega)
        rw [if_neg hnf]
        by_cases h127 : p % 128 = 127
        · rw [if_pos (by rw [hssz]; omega)]
          have e1 : L + p / 128 + 1 = L + (p + 1) / 128 := by omega
          have e2 : (0 : Nat) = (p + 1) % 128 * 4 := by omega
          rw [e1, e2]
          exact ih (p + 1) _ _ (by omega) (by omega)
            (by rw [cache_load_fat_lba]; exact hL)
            (by rw [cache_load_sector_size]; exact hssz)
            (Or.inr ⟨cache_load_clean _ _ _ hcl, rfl, by omega⟩) (by omega)
        · rw [if_neg (by rw [hssz]; omega)]
          have e1 : L + p / 128 = L + (p + 1) / 128 := by omega
          have e2 : p % 128 * 4 + 4 = (p + 1) % 128 * 4 := by omega
          rw [e1, e2]
          exact ih (p + 1) _ _ (by omega) (by omega)
            (by rw [cache_load_fat_lba]; exact hL)
            (by rw [cache_load_sector_size]; exact hssz)
            (Or.inr ⟨cache_load_clean _ _ _ hcl, rfl, by omega⟩) (by omega)

theorem fat_get_cluster_scan_phase1 (d : disk_s) (L c1 c2 : Nat)
    (hio : read_all_ok d) (hwo : write_all_ok d)
    (hfree1 : disk_fat_entry d L c1 &&& 127 = 0)
    (hfree2 : disk_fat_entry d L c2 &&& 127 = 0)
    (h12 : c1 < c2)
    (hmid : ∀ x, c1 < x → x < c2 → ¬ (disk_fat_entry d L x &&& 127 = 0)) :
    ∀ (fuel p cin : Nat) (vol : volume_s),
      p ≤ c1 →
      (∀ x, p ≤ x → x < c1 → ¬ (disk_fat_entry d L x &&& 127 = 0)) →
      cache_clean vol d → vol.fat_lba = L → vol.sector_size = 512 →
      c2 - p + 1 ≤ fuel →
      ∃ (v2 : volume_s) (dX : disk_s),
        fat_get_cluster_scan fuel (L + p / 128) (p % 128 * 4) false cin vol d =
          some (.inr (L + c2 / 128, c2 % 128 * 4, c1, v2, dX)) ∧
        ((dX = d ∧ v2.buffer = gc_marked_buffer d L c1 ∧
          v2.buffer_lba = L + c1 / 128 ∧ v2.buffer_dirty = true) ∨
         (dX = gc_flushed_disk d L c1 ∧ cache_clean v2 (gc_flushed_disk d L c1) ∧
          v2.buffer_lba = L + c2 / 128)) := by
  intro fuel
  induction fuel with
  | zero =>
    intro p cin vol h1 _ _ _ _ hf
    omega
  | succ fuel ih =>
    intro p cin vol hpc1 hbefore hclean hL hssz hfuel
    simp only [fat_get_cluster_scan]
    rw [fat_read_clean vol d (L + p / 128) hclean.1 (hio _)]
    dsimp only
    have hentry : fat_load32 (cache_load vol d (L + p / 128)).buffer (p % 128 * 4) =
        disk_fat_entry d L p := by
      rw [cache_load_buffer _ _ _ hclean.2]
      rfl
    rw [hentry]
    by_cases hp1 : p = c1
    · subst hp1
      rw [if_pos hfree1]
      rw [if_neg (show ¬(false = true) by simp)]
      have ec : 128 * (L + p / 128 - vol.fat_lba) + p % 128 * 4 / 4 = p := by
        rw [hL]; omega
      rw [ec]
      have hmark : ({ cache_load vol d (L + p / 128) with
          buffer := fat_store32 (cache_load vol d (L + p / 128)).buffer
            (p % 128 * 4) 268435455,
          buffer_dirty := true } : volume_s).buffer = gc_marked_buffer d L p := by
        dsimp only
        rw [cache_load_buffer _ _ _ hclean.2]
        rfl
      by_cases h127 : p % 128 = 127
      · rw [if_pos (by rw [hssz]; omega)]
        have e1 : L + p / 128 + 1 = L + (p + 1) / 128 := by omega
        have e2 : (0 : Nat) = (p + 1) % 128 * 4 := by omega
        rw [e1, e2]
        exact fat_get_cluster_scan_after_mark d L p c2 hio hwo hfree2 hmid fuel (p + 1)
          _ _ (by omega) (by omega)
          (by dsimp only; rw [cache_load_fat_lba]; exact hL)
          (by dsimp only; rw [cache_load_sector_size]; exact hssz)
          (Or.inl ⟨hmark, by dsimp only; rw [cache_load_buffer_lba], rfl, rfl⟩)
          (by omega)
      · rw [if_neg (by rw [hssz]; omega)]
        have e2 : p % 128 * 4 + 4 = (p + 1) % 128 * 4 := by omega
        rw [e2]
        obtain ⟨v2, dX, hscan, hprops⟩ :=
          fat_get_cluster_scan_after_mark d L p c2 hio hwo hfree2 hmid fuel (p + 1)
            { cache_load vol d (L + p / 128) with buffer := fat_store32 (cache_load vol d (L + p / 128)).buffer (p % 128 * 4) 268435455, buffer_dirty := true }
            d (by omega) (by omega)
            (by dsimp only; rw [cache_load_fat_lba]; exact hL)
            (by dsimp only; rw [cache_load_sector_size]; exact hssz)
            (Or.inl ⟨hmark, by dsimp only; rw [cache_load_buffer_lba], rfl, rfl⟩)
            (by omega)
        rw [show L + (p + 1) / 128 = L + p / 128 from by omega] at hscan
        exact ⟨v2, dX, hscan, hprops⟩
    · have hnf : ¬ (disk_fat_entry d L p &&& 127 = 0) := hbefore p (le_refl p) (by omega)
      rw [if_neg hnf]
      by_cases h127 : p % 128 = 127
      · rw [if_pos (by rw [hssz]; omega)]
        have e1 : L + p / 128 + 1 = L + (p + 1) / 128 := by omega
        have e2 : (0 : Nat) = (p + 1) % 128 * 4 := by omega
        rw [e1, e2]
        exact ih (p + 1) cin _ (by omega) (fun x hx1 hx2 => hbefore x (by omega) hx2)
          (cache_load_clean _ _ _ hclean)
          (by rw [cache_load_fat_lba]; exact hL)
          (by rw [cache_load_sector_size]; exact hssz) (by omega)
      · rw [if_neg (by rw [hssz]; omega)]
        have e1 : L + p / 128 = L + (p + 1) / 128 := by omega
        have e2 : p % 128 * 4 + 4 = (p + 1) % 128 * 4 := by omega
        rw [e1, e2]
        exact ih (p + 1) cin _ (by omega) (fun x hx1 hx2 => hbefore x (by omega) hx2)
          (cache_load_clean _ _ _ hclean)
          (by rw [cache_load_fat_lba]; exact hL)
          (by rw [cache_load_sector_size]; exact hssz) (by omega)

/-- C3: on a volume whose FSInfo holds `next_free` and `free_count`, with
`c1` the first free FAT entry (low 7 bits zero) at or after `next_free` and
`c2` the next free entry after it, `fat_get_cluster` writes `c1` through its
out-parameter, overwrites FAT[c1] with `0x0FFFFFFF`, stores `c2` into FSInfo
`next_free` and `free_count - 1` into FSInfo `free_count`, and flushes both
the FAT sector and the FSInfo sector to disk before returning: the returned
disk is exactly the input disk with those two sectors rewritten, and reading
it back gives the updated values. -/
theorem fat_get_cluster_spec (vol : volume_s) (d : disk_s) (cin c1 c2 fuel : Nat)
    (hio : read_all_ok d) (hwo : write_all_ok d)
    (hclean : cache_clean vol d) (hssz : vol.sector_size = 512)
    (hinfo : vol.info_lba < vol.fat_lba)
    (hnf : fat_load32 (d.data vol.info_lba) 492 ≤ c1)
    (hfree1 : disk_fat_entry d vol.fat_lba c1 &&& 127 = 0)
    (hfree2 : disk_fat_entry d vol.fat_lba c2 &&& 127 = 0)
    (h12 : c1 < c2)
    (hmin1 : ∀ x, fat_load32 (d.data vol.info_lba) 492 ≤ x → x < c1 →
      ¬ (disk_fat_entry d vol.fat_lba x &&& 127 = 0))
    (hmid : ∀ x, c1 < x → x < c2 → ¬ (disk_fat_entry d vol.fat_lba x &&& 127 = 0))
    (hc2M : c2 < 4294967296)
    (hfc1 : 1 ≤ fat_load32 (d.data vol.info_lba) 488)
    (hfcM : fat_load32 (d.data vol.info_lba) 488 < 4294967296)
    (hfuel : c2 - fat_load32 (d.data vol.info_lba) 492 + 1 ≤ fuel) :
    ∃ vf : volume_s,
      fat_get_cluster fuel cin vol d =
        some (.undef, c1, vf,
          disk_write_sector (gc_flushed_disk d vol.fat_lba c1) vol.info_lba
            (fat_store32 (fat_store32 (d.data vol.info_lba) 492 c2) 488
              ((fat_load32 (d.data vol.info_lba) 488 + 4294967295) % 4294967296))) ∧
      disk_fat_entry
        (disk_write_sector (gc_flushed_disk d vol.fat_lba c1) vol.info_lba
          (fat_store32 (fat_store32 (d.data vol.info_lba) 492 c2) 488
            ((fat_load32 (d.data vol.info_lba) 488 + 4294967295) % 4294967296)))
        vol.fat_lba c1 = 268435455 ∧
      fat_load32
        ((disk_write_sector (gc_flushed_disk d vol.fat_lba c1) vol.info_lba
          (fat_store32 (fat_store32 (d.data vol.info_lba) 492 c2) 488
            ((fat_load32 (d.data vol.info_lba) 488 + 4294967295) % 4294967296))).data
          vol.info_lba) 492 = c2 ∧
      fat_load32
        ((disk_write_sector (gc_flushed_disk d vol.fat_lba c1) vol.info_lba
          (fat_store32 (fat_store32 (d.data vol.info_lba) 492 c2) 488
            ((fat_load32 (d.data vol.info_lba) 488 + 4294967295) % 4294967296))).data
          vol.info_lba) 488 = fat_load32 (d.data vol.info_lba) 488 - 1 := by
  have hio' : read_all_ok (gc_flushed_disk d vol.fat_lba c1) := fun l => hio l
  have hwo' : write_all_ok (gc_flushed_disk d vol.fat_lba c1) := fun l => hwo l
  have hinfo_ne : vol.info_lba ≠ vol.fat_lba + c1 / 128 := by omega
  have hdata_info : (gc_flushed_disk d vol.fat_lba c1).data vol.info_lba =
      d.data vol.info_lba := by
    unfold gc_flushed_disk disk_write_sector
    dsimp only
    rw [if_neg hinfo_ne]
  simp only [fat_get_cluster]
  rw [fat_read_clean vol d vol.info_lba hclean.1 (hio _)]
  simp only [cache_load_buffer vol d vol.info_lba hclean.2]
  obtain ⟨v2, dX, hscan, hprops⟩ :=
    fat_get_cluster_scan_phase1 d vol.fat_lba c1 c2 hio hwo hfree1 hfree2 h12 hmid
      fuel (fat_load32 (d.data vol.info_lba) 492) cin
      (cache_load vol d vol.info_lba)
      hnf hmin1 (cache_load_clean vol d _ hclean)
      (cache_load_fat_lba vol d _)
      (by rw [cache_load_sector_size]; exact hssz)
      hfuel
  rw [hscan]
  dsimp only
  have ex : 128 * (vol.fat_lba + c2 / 128 - vol.fat_lba) + c2 % 128 * 4 / 4 = c2 := by
    omega
  rw [ex]
  rcases hprops with ⟨hdX, hbuf2, hlba2, hdirty2⟩ | ⟨hdX, hcl2, hlba2⟩
  · -- the mark sector is still dirty in the cache; this read flushes it
    rw [hdX]
    rw [fat_read_dirty_miss v2 d vol.info_lba (by rw [hlba2]; omega) hdirty2
      (hwo _) (hio _)]
    dsimp only
    rw [hlba2, hbuf2]
    have hdisk : disk_write_sector d (vol.fat_lba + c1 / 128)
        (gc_marked_buffer d vol.fat_lba c1) = gc_flushed_disk d vol.fat_lba c1 := rfl
    rw [hdisk, hdata_info]
    unfold fat_flush
    dsimp only
    rw [if_pos rfl, if_pos (hwo' vol.info_lba)]
    refine ⟨_, rfl, ?_, ?_, ?_⟩
    · unfold disk_fat_entry disk_write_sector gc_flushed_disk disk_write_sector
      dsimp only
      rw [if_neg (by omega), if_pos rfl]
      unfold gc_marked_buffer
      rw [fat_load32_store32_same]
    · unfold disk_write_sector
      dsimp only
      rw [if_pos rfl]
      rw [fat_load32_store32_ne _ _ _ _ (by omega), fat_load32_store32_same]
      omega
    · unfold disk_write_sector
      dsimp only
      rw [if_pos rfl]
      rw [fat_load32_store32_same]
      omega
  · -- the mark was already flushed while the scan crossed sectors
    rw [hdX]
    rw [fat_read_clean v2 (gc_flushed_disk d vol.fat_lba c1) vol.info_lba hcl2.1
      (hio' _)]
    dsimp only
    simp only [cache_load_buffer v2 (gc_flushed_disk d vol.fat_lba c1) vol.info_lba
      hcl2.2]
    rw [hdata_info]
    unfold fat_flush
    dsimp only
    rw [if_pos rfl]
    rw [cache_load_buffer_lba]
    rw [if_pos (hwo' vol.info_lba)]
    refine ⟨_, rfl, ?_, ?_, ?_⟩
    · unfold disk_fat_entry disk_write_sector gc_flushed_disk disk_write_sector
      dsimp only
      rw [if_neg (by omega), if_pos rfl]
      unfold gc_marked_buffer
      rw [fat_load32_store32_same]
    · unfold disk_write_sector
      dsimp only
      rw [if_pos rfl]
      rw [fat_load32_store32_ne _ _ _ _ (by omega), fat_load32_store32_same]
      omega
    · unfold disk_write_sector
      dsimp only
      rw [if_pos rfl]
      rw [fat_load32_store32_same]
      omega

/-- The FSInfo-backed volume of the spec's allocation scenario: FSInfo at LBA
1, FAT at LBA 2, `next_free = 10`, `free_count = 50`, every FAT entry free. -/
def vol_c3 : volume_s :=
  { letter := 67, sector_size := 512, cluster_size := 8, total_size := 67605,
    info_lba := 1, fat_lba := 2, data_lba := 100, root_lba := 100,
    buffer := fun _ => 0, buffer_lba := 0, buffer_dirty := false }

/-- Disk for the allocation scenario: FSInfo sector 1 holds
`next_free = 10`@492 and `free_count = 50`@488; the FAT sector is zeroed
(all entries free). -/
def disk_c3 : disk_s :=
  { data := fun lba i =>
      if lba = 1 then (if i = 492 then 10 else if i = 488 then 50 else 0) else 0,
    readOk := fun _ => true, writeOk := fun _ => true }

/-- C3 witness: the spec's scenario 6 — `next_free = 10`, `free_count = 50`,
free entries at clusters 10 and 11: the allocator hands out cluster 10,
marks FAT[10] with `0x0FFFFFFF` on disk, and the flushed FSInfo reads back
`next_free = 11`, `free_count = 49`. -/
theorem fat_get_cluster_spec_witness :
    ∃ (vf : volume_s) (df : disk_s),
      fat_get_cluster 3 0 vol_c3 disk_c3 = some (.undef, 10, vf, df) ∧
      disk_fat_entry df vol_c3.fat_lba 10 = 268435455 ∧
      fat_load32 (df.data vol_c3.info_lba) 492 = 11 ∧
      fat_load32 (df.data vol_c3.info_lba) 488 = 49 := by
  obtain ⟨vf, h1, h2, h3, h4⟩ :=
    fat_get_cluster_spec vol_c3 disk_c3 0 10 11 3 (fun _ => rfl) (fun _ => rfl)
      ⟨rfl, rfl⟩ rfl (by decide) (by decide) (by decide) (by decide) (by decide)
      (by
        intro x hx1 hx2
        rw [show fat_load32 (disk_c3.data vol_c3.info_lba) 492 = 10 from by decide]
          at hx1
        omega)
      (by intro x hx1 hx2; omega)
      (by decide) (by decide) (by decide) (by decide)
  exact ⟨vf, _, h1, h2, h3, by rw [h4]; decide⟩

/-- C9: on the allocation scenario where every intermediate cache read and
write succeeds, `fat_get_cluster` does not return success — control falls
off the end of the function (`undef`, an indeterminate return value in C)
instead of an explicit success return. -/
theorem fat_get_cluster_no_success_return :
    (fat_get_cluster 3 0 vol_c3 disk_c3).map (fun r => r.1) = some gc_ret.undef ∧
    gc_ret.undef ≠ gc_ret.ok := by
  exact ⟨by decide, by decide⟩
